import Mathlib

/-!
# Inventory store

A shallow embedding of the client-side store of the inventory application,
`src/src/store/useStore.js`, and of the code of the views that calls it (the
page loaders, the two form modals and the adjustment table), followed by the
properties of these operations.

Conventions of the embedding.

* A JavaScript object of the data model is a Lean structure; a property that the
  source reads through `?.` or guards with `||` is an `Option` (`none` stands for
  `undefined` and `null`).
* Identifiers are numbers or strings and are compared with `===`, so the number
  `1` and the string `"1"` are different identifiers.
* Quantities, stock levels and counters are integers; prices and amounts are
  exact rationals.  Rounding of IEEE doubles is outside the model.
* An object handed to a spread (`{ ...a, ...b }`) on the right is a patch: a
  structure in which every property is optional, `none` meaning that the patch
  does not define the property.
* `set({ ... })` of the store library overwrites exactly the listed properties;
  it is a structure update.
* Code that awaits an HTTP call takes the outcome of the call as an argument and
  is the sequence of store operations it performs for that outcome; operations
  of other callers are not interleaved.
* A record of the data model cannot hold `NaN`; a handler that would write one
  has the result `none`.
-/

namespace Store

/-! ## Data model -/

/-- Identifier of an entity: a JavaScript number or string. -/
inductive Id where
  | num (n : Int)
  | str (s : String)
  deriving DecidableEq, Repr

/-- Product entity. -/
structure Product where
  id : Id
  title : Option String
  sku : Option String
  description : Option String
  image : Option String
  price : Rat
  stock : Int
  deriving DecidableEq, Repr

/-- Patch for a product: the second operand of `{ ...p, ...updatedProduct }`. -/
structure ProductPatch where
  id : Option Id
  title : Option (Option String)
  sku : Option (Option String)
  description : Option (Option String)
  image : Option (Option String)
  price : Option Rat
  stock : Option Int
  deriving DecidableEq, Repr

/-- Adjustment transaction entity. -/
structure Adjustment where
  id : Id
  sku : Option String
  title : Option String
  image : Option String
  price : Option Rat
  qty : Int
  amount : Option Rat
  created_at : Option String
  product_id : Option Id
  deriving DecidableEq, Repr

/-- Patch for an adjustment: the second operand of `{ ...a, ...updatedAdjustment }`. -/
structure AdjustmentPatch where
  id : Option Id
  sku : Option (Option String)
  title : Option (Option String)
  image : Option (Option String)
  price : Option (Option Rat)
  qty : Option Int
  amount : Option (Option Rat)
  created_at : Option (Option String)
  product_id : Option (Option Id)
  deriving DecidableEq, Repr

/-- The object spread `{ ...p, ...updatedProduct }`: every property that the
patch defines takes the value of the patch, every other one keeps its value. -/
def Product.spread (p : Product) (u : ProductPatch) : Product :=
  { id := u.id.getD p.id
    title := u.title.getD p.title
    sku := u.sku.getD p.sku
    description := u.description.getD p.description
    image := u.image.getD p.image
    price := u.price.getD p.price
    stock := u.stock.getD p.stock }

/-- The object spread `{ ...a, ...updatedAdjustment }`. -/
def Adjustment.spread (a : Adjustment) (u : AdjustmentPatch) : Adjustment :=
  { id := u.id.getD a.id
    sku := u.sku.getD a.sku
    title := u.title.getD a.title
    image := u.image.getD a.image
    price := u.price.getD a.price
    qty := u.qty.getD a.qty
    amount := u.amount.getD a.amount
    created_at := u.created_at.getD a.created_at
    product_id := u.product_id.getD a.product_id }

/-- State of the store (useStore.js, lines 11 to 33). -/
structure State where
  products : List Product
  productPage : Int
  productHasMore : Bool
  productLoading : Bool
  selectedProduct : Option Product
  adjustments : List Adjustment
  adjustmentPage : Int
  adjustmentTotal : Int
  adjustmentHasMore : Bool
  adjustmentLoading : Bool
  selectedAdjustment : Option Adjustment
  isProductModalOpen : Bool
  isProductDetailOpen : Bool
  isAdjustmentModalOpen : Bool
  adjustmentModalMode : String
  deriving DecidableEq, Repr

/-- The state the store is created with (useStore.js, lines 11 to 33). -/
def initialState : State :=
  { products := []
    productPage := 1
    productHasMore := true
    productLoading := false
    selectedProduct := none
    adjustments := []
    adjustmentPage := 1
    adjustmentTotal := 0
    adjustmentHasMore := true
    adjustmentLoading := false
    selectedAdjustment := none
    isProductModalOpen := false
    isProductDetailOpen := false
    isAdjustmentModalOpen := false
    adjustmentModalMode := "create" }

/-- Argument of the setters that guard with `Array.isArray`: an array, or any
other JavaScript value. -/
inductive ArrayArg (α : Type) where
  | array (xs : List α)
  | notArray
  deriving DecidableEq, Repr

/-- The guard `Array.isArray(x) ? x : []`. -/
def ArrayArg.orEmpty {α : Type} : ArrayArg α → List α
  | .array xs => xs
  | .notArray => []

/-! ## Product actions (useStore.js, lines 38 to 149) -/

/-- Action `setProducts` (lines 38 to 42). -/
def setProducts (s : State) (products : ArrayArg Product) : State :=
  let validProducts := products.orEmpty
  { s with products := validProducts }

/-- Action `addProducts` (lines 44 to 56). -/
def addProducts (s : State) (newProducts : ArrayArg Product) : State :=
  let current := s.products
  let toAdd := newProducts.orEmpty
  let updated := current ++ toAdd
  { s with products := updated }

/-- Action `addProduct` (lines 58 to 63). -/
def addProduct (s : State) (product : Product) : State :=
  { s with products := product :: s.products }

/-- Action `updateProduct` (lines 65 to 72). -/
def updateProduct (s : State) (id : Id) (updatedProduct : ProductPatch) : State :=
  { s with products := s.products.map (fun p => if p.id = id then p.spread updatedProduct else p) }

/-- Action `deleteProduct` (lines 74 to 79). -/
def deleteProduct (s : State) (id : Id) : State :=
  { s with products := s.products.filter (fun p => p.id ≠ id) }

/-- Action `setProductLoading` (lines 81 to 84). -/
def setProductLoading (s : State) (loading : Bool) : State :=
  { s with productLoading := loading }

/-- Action `setProductPage` (line 86). -/
def setProductPage (s : State) (page : Int) : State :=
  { s with productPage := page }

/-- Action `setProductHasMore` (line 87). -/
def setProductHasMore (s : State) (hasMore : Bool) : State :=
  { s with productHasMore := hasMore }

/-- Action `resetProducts` (lines 141 to 149). -/
def resetProducts (s : State) : State :=
  { s with
    products := []
    productPage := 1
    productHasMore := true
    productLoading := false }

/-! ## Adjustment actions (useStore.js, lines 154 to 220) -/

/-- Action `setAdjustments` (lines 154 to 160). -/
def setAdjustments (s : State) (adjustments : ArrayArg Adjustment) : State :=
  let validAdjustments := adjustments.orEmpty
  { s with adjustments := validAdjustments }

/-- Action `addAdjustments` (lines 162 to 174). -/
def addAdjustments (s : State) (newAdjustments : ArrayArg Adjustment) : State :=
  let current := s.adjustments
  let toAdd := newAdjustments.orEmpty
  let updated := current ++ toAdd
  { s with adjustments := updated }

/-- Action `addAdjustment` (lines 176 to 182). -/
def addAdjustment (s : State) (adjustment : Adjustment) : State :=
  { s with
    adjustments := adjustment :: s.adjustments
    adjustmentTotal := s.adjustmentTotal + 1 }

/-- Action `updateAdjustment` (lines 184 to 191). -/
def updateAdjustment (s : State) (id : Id) (updatedAdjustment : AdjustmentPatch) : State :=
  { s with
    adjustments := s.adjustments.map (fun a => if a.id = id then a.spread updatedAdjustment else a) }

/-- Action `deleteAdjustment` (lines 193 to 199). -/
def deleteAdjustment (s : State) (id : Id) : State :=
  { s with
    adjustments := s.adjustments.filter (fun a => a.id ≠ id)
    adjustmentTotal := max 0 (s.adjustmentTotal - 1) }

/-- Action `setAdjustmentLoading` (lines 201 to 204). -/
def setAdjustmentLoading (s : State) (loading : Bool) : State :=
  { s with adjustmentLoading := loading }

/-- Action `setAdjustmentPage` (line 206). -/
def setAdjustmentPage (s : State) (page : Int) : State :=
  { s with adjustmentPage := page }

/-- Action `setAdjustmentTotal` (line 207). -/
def setAdjustmentTotal (s : State) (total : Int) : State :=
  { s with adjustmentTotal := total }

/-- Action `setAdjustmentHasMore` (line 208). -/
def setAdjustmentHasMore (s : State) (hasMore : Bool) : State :=
  { s with adjustmentHasMore := hasMore }

/-- Action `resetAdjustments` (lines 211 to 220). -/
def resetAdjustments (s : State) : State :=
  { s with
    adjustments := []
    adjustmentPage := 1
    adjustmentTotal := 0
    adjustmentHasMore := true
    adjustmentLoading := false }

/-! ## Modal actions (useStore.js, lines 225 to 302) -/

/-- Action `openProductModal` (lines 225 to 238).  The default argument
`product = null` is the call with `none`. -/
def openProductModal (s : State) (product : Option Product) : State :=
  { s with
    isProductModalOpen := true
    selectedProduct := product
    isProductDetailOpen := false
    isAdjustmentModalOpen := false
    adjustmentModalMode := "create" }

/-- Action `closeProductModal` (lines 240 to 246). -/
def closeProductModal (s : State) : State :=
  { s with
    isProductModalOpen := false
    selectedProduct := none }

/-- Action `openProductDetail` (lines 251 to 261).  The source reads `product.id`
before it writes the state, so the argument is a product. -/
def openProductDetail (s : State) (product : Product) : State :=
  { s with
    isProductDetailOpen := true
    selectedProduct := some product
    isProductModalOpen := false
    isAdjustmentModalOpen := false
    adjustmentModalMode := "create" }

/-- Action `closeProductDetail` (lines 263 to 269). -/
def closeProductDetail (s : State) : State :=
  { s with
    isProductDetailOpen := false
    selectedProduct := none }

/-- Action `openAdjustmentModal` (lines 274 to 287).  The default arguments
`adjustment = null, mode = "create"` are the call with `none` and `"create"`. -/
def openAdjustmentModal (s : State) (adjustment : Option Adjustment) (mode : String) : State :=
  { s with
    isAdjustmentModalOpen := true
    selectedAdjustment := adjustment
    adjustmentModalMode := mode
    isProductModalOpen := false
    isProductDetailOpen := false }

/-- Action `closeAdjustmentModal` (lines 289 to 296). -/
def closeAdjustmentModal (s : State) : State :=
  { s with
    isAdjustmentModalOpen := false
    selectedAdjustment := none
    adjustmentModalMode := "create" }

/-- Action `setAdjustmentModalMode` (lines 299 to 302). -/
def setAdjustmentModalMode (s : State) (mode : String) : State :=
  { s with adjustmentModalMode := mode }

/-- Action `closeAllModals` (lines 388 to 398). -/
def closeAllModals (s : State) : State :=
  { s with
    isProductModalOpen := false
    isProductDetailOpen := false
    isAdjustmentModalOpen := false
    selectedProduct := none
    selectedAdjustment := none
    adjustmentModalMode := "create" }

/-- Action `clearAllData` (lines 401 to 425): every state property is listed. -/
def clearAllData (_s : State) : State :=
  { products := []
    productPage := 1
    productHasMore := true
    productLoading := false
    selectedProduct := none
    adjustments := []
    adjustmentPage := 1
    adjustmentTotal := 0
    adjustmentHasMore := true
    adjustmentLoading := false
    selectedAdjustment := none
    isProductModalOpen := false
    isProductDetailOpen := false
    isAdjustmentModalOpen := false
    adjustmentModalMode := "create" }

/-! ## Derived queries (useStore.js, lines 309 to 385) -/

/-- Query `getProductById` (lines 309 to 312): `find(...) || null`. -/
def getProductById (s : State) (id : Id) : Option Product :=
  s.products.find? (fun p => p.id = id)

/-- Query `getAdjustmentById` (lines 315 to 318). -/
def getAdjustmentById (s : State) (id : Id) : Option Adjustment :=
  s.adjustments.find? (fun a => a.id = id)

/-- The string method `includes`: `sub` occurs in `str` at some position. -/
def includes (str sub : String) : Bool :=
  str.data.tails.any (fun rest => sub.data.isPrefixOf rest)

/-- One disjunct of the search filter, `field?.toLowerCase().includes(lowerQuery)`:
an absent field yields `undefined`, which is falsy. -/
def fieldIncludes (toLowerCase : String → String) (field : Option String)
    (lowerQuery : String) : Bool :=
  match field with
  | none => false
  | some text => includes (toLowerCase text) lowerQuery

/-- Query `searchProducts` (lines 321 to 332).  The string method `toLowerCase`
is a parameter; `!query` holds for an absent query and for the empty string. -/
def searchProducts (toLowerCase : String → String) (s : State)
    (query : Option String) : List Product :=
  let products := s.products
  match query with
  | none => products
  | some q =>
    if q = "" then products
    else
      let lowerQuery := toLowerCase q
      products.filter (fun product =>
        fieldIncludes toLowerCase product.title lowerQuery ||
        fieldIncludes toLowerCase product.sku lowerQuery ||
        fieldIncludes toLowerCase product.description lowerQuery)

/-- Query `getLowStockProducts` (lines 335 to 338); the default threshold is 10. -/
def getLowStockProducts (s : State) (threshold : Int) : List Product :=
  s.products.filter (fun product => product.stock ≤ threshold)

/-- Query `getTotalInventoryValue` (lines 341 to 346). -/
def getTotalInventoryValue (s : State) : Rat :=
  s.products.foldl (fun total product => total + product.price * product.stock) 0

/-- What the store reads of a `Date` object: `getMonth()` (0 to 11) and
`getFullYear()`. -/
structure JsDate where
  month : Nat
  fullYear : Int
  deriving DecidableEq, Repr

/-- Result object of `getAdjustmentStats`. -/
structure AdjustmentStats where
  total : Nat
  stockIn : Int
  stockOut : Int
  totalValue : Rat
  thisMonth : Nat
  deriving DecidableEq, Repr

/-- Body of the `forEach` of `getAdjustmentStats` (lines 363 to 382).
`parseDate` is `new Date(created_at)`, `none` being an invalid date, whose
`getMonth()` is `NaN` and equals nothing. -/
def statsStep (parseDate : String → Option JsDate) (currentMonth : Nat) (currentYear : Int)
    (stats : AdjustmentStats) (adjustment : Adjustment) : AdjustmentStats :=
  let stats₁ :=
    if adjustment.qty > 0 then
      { stats with stockIn := stats.stockIn + adjustment.qty }
    else
      { stats with stockOut := stats.stockOut + |adjustment.qty| }
  let stats₂ := { stats₁ with totalValue := stats₁.totalValue + |adjustment.amount.getD 0| }
  match adjustment.created_at with
  | none => stats₂
  | some created =>
    if created = "" then stats₂
    else
      match parseDate created with
      | none => stats₂
      | some adjustmentDate =>
        if adjustmentDate.month = currentMonth ∧ adjustmentDate.fullYear = currentYear then
          { stats₂ with thisMonth := stats₂.thisMonth + 1 }
        else stats₂

/-- Query `getAdjustmentStats` (lines 349 to 385).  The source reads the clock
twice: `now₁` gives `currentMonth` and `now₂` gives `currentYear`. -/
def getAdjustmentStats (parseDate : String → Option JsDate) (now₁ now₂ : JsDate)
    (s : State) : AdjustmentStats :=
  let adjustments := s.adjustments
  let stats : AdjustmentStats :=
    { total := adjustments.length
      stockIn := 0
      stockOut := 0
      totalValue := 0
      thisMonth := 0 }
  let currentMonth := now₁.month
  let currentYear := now₂.fullYear
  adjustments.foldl (statsStep parseDate currentMonth currentYear) stats

/-! ## Persistence (useStore.js, lines 486 to 510) -/

/-- Persisted snapshot as `merge` receives it: any subset of the state
properties may be present in storage. -/
structure PersistedState where
  products : Option (List Product)
  productPage : Option Int
  productHasMore : Option Bool
  productLoading : Option Bool
  selectedProduct : Option (Option Product)
  adjustments : Option (List Adjustment)
  adjustmentPage : Option Int
  adjustmentTotal : Option Int
  adjustmentHasMore : Option Bool
  adjustmentLoading : Option Bool
  selectedAdjustment : Option (Option Adjustment)
  isProductModalOpen : Option Bool
  isProductDetailOpen : Option Bool
  isAdjustmentModalOpen : Option Bool
  adjustmentModalMode : Option String
  deriving DecidableEq, Repr

/-- Option `partialize` (lines 489 to 493): only the two collections are kept. -/
def partialize (s : State) : PersistedState :=
  { products := some s.products
    productPage := none
    productHasMore := none
    productLoading := none
    selectedProduct := none
    adjustments := some s.adjustments
    adjustmentPage := none
    adjustmentTotal := none
    adjustmentHasMore := none
    adjustmentLoading := none
    selectedAdjustment := none
    isProductModalOpen := none
    isProductDetailOpen := none
    isAdjustmentModalOpen := none
    adjustmentModalMode := none }

/-- Option `merge` (lines 495 to 507):
`{ ...currentState, ...persistedState, <eight literal properties> }`. -/
def merge (persistedState : PersistedState) (currentState : State) : State :=
  { products := persistedState.products.getD currentState.products
    productPage := persistedState.productPage.getD currentState.productPage
    productHasMore := persistedState.productHasMore.getD currentState.productHasMore
    adjustments := persistedState.adjustments.getD currentState.adjustments
    adjustmentPage := persistedState.adjustmentPage.getD currentState.adjustmentPage
    adjustmentTotal := persistedState.adjustmentTotal.getD currentState.adjustmentTotal
    adjustmentHasMore := persistedState.adjustmentHasMore.getD currentState.adjustmentHasMore
    productLoading := false
    adjustmentLoading := false
    isProductModalOpen := false
    isProductDetailOpen := false
    isAdjustmentModalOpen := false
    adjustmentModalMode := "create"
    selectedProduct := none
    selectedAdjustment := none }

/-! ## Sequences of calls -/

/-- Calling `addProducts` with each array of `pages`, in order. -/
def addProductsEach (s : State) (pages : List (List Product)) : State :=
  pages.foldl (fun st page => addProducts st (ArrayArg.array page)) s

/-- Calling `addAdjustments` with each array of `pages`, in order. -/
def addAdjustmentsEach (s : State) (pages : List (List Adjustment)) : State :=
  pages.foldl (fun st page => addAdjustments st (ArrayArg.array page)) s

/-! ## Sample data

Concrete entities and states on which the operations are evaluated. -/

/-- A product with identifier 1. -/
def sampleProduct : Product :=
  { id := Id.num 1
    title := some "Blue Mug"
    sku := some "MUG-001"
    description := none
    image := none
    price := 12
    stock := 4 }

/-- A second product, with identifier 2. -/
def otherProduct : Product :=
  { id := Id.num 2
    title := some "Red Plate"
    sku := some "PLT-002"
    description := some "dinner plate"
    image := none
    price := 7
    stock := 30 }

/-- An adjustment with identifier 7 that refers to `sampleProduct`. -/
def sampleAdjustment : Adjustment :=
  { id := Id.num 7
    sku := some "MUG-001"
    title := some "Blue Mug"
    image := none
    price := some 12
    qty := 5
    amount := some 60
    created_at := some "2024-05-10T08:00:00.000Z"
    product_id := some (Id.num 1) }

/-- A patch that defines no property. -/
def emptyProductPatch : ProductPatch :=
  { id := none
    title := none
    sku := none
    description := none
    image := none
    price := none
    stock := none }

/-- A patch that defines no property. -/
def emptyAdjustmentPatch : AdjustmentPatch :=
  { id := none
    sku := none
    title := none
    image := none
    price := none
    qty := none
    amount := none
    created_at := none
    product_id := none }

/-- A state whose collections hold the two sample products and the sample
adjustment, with a total of 1. -/
def sampleState : State :=
  { initialState with
    products := [sampleProduct, otherProduct]
    adjustments := [sampleAdjustment]
    adjustmentTotal := 1 }

/-- Number of modals that report open. -/
def openModalCount (s : State) : Nat :=
  (if s.isProductModalOpen then 1 else 0) + (if s.isProductDetailOpen then 1 else 0)
    + (if s.isAdjustmentModalOpen then 1 else 0)

/-- The sample state with the adjustment modal open in edit mode on the sample
adjustment. -/
def adjustmentEditState : State :=
  openAdjustmentModal sampleState (some sampleAdjustment) "edit"

/-- The sample state with the product modal open on the sample product. -/
def productEditState : State :=
  openProductModal sampleState (some sampleProduct)

/-- The sample state with the detail modal open on the sample product. -/
def productDetailState : State :=
  openProductDetail sampleState sampleProduct

/-- A current state that is stuck: loading, with the product modal open on a
selection. -/
def stuckState : State :=
  { initialState with
    productLoading := true
    adjustmentLoading := true
    isProductModalOpen := true
    adjustmentModalMode := "edit"
    selectedProduct := some otherProduct
    selectedAdjustment := some sampleAdjustment }

/-- The persisted snapshot `{ products: [p1, p2], adjustments: [] }`. -/
def sampleSnapshot : PersistedState :=
  partialize { initialState with products := [sampleProduct, otherProduct] }

/-! ## Statistics as the specification words them -/

/-- An adjustment has a `created_at` (a non-empty string) that parses to a date
in month `month` of year `year`. -/
def createdInMonth (parseDate : String → Option JsDate) (month : Nat) (year : Int)
    (a : Adjustment) : Bool :=
  match a.created_at with
  | none => false
  | some created =>
    match parseDate created with
    | none => false
    | some date => decide (created ≠ "" ∧ date.month = month ∧ date.fullYear = year)

/-- The aggregate as the specification states it: the count, the sum of the
positive quantities, the sum of the absolute values of the other quantities, the
sum of the absolute amounts (an absent amount counting as 0) and the number of
entries created in the given month of the given year. -/
def adjustmentStatsSpec (parseDate : String → Option JsDate) (month : Nat) (year : Int)
    (xs : List Adjustment) : AdjustmentStats :=
  { total := xs.length
    stockIn := ((xs.filter (fun a => decide (0 < a.qty))).map (fun a => a.qty)).sum
    stockOut := ((xs.filter (fun a => decide (a.qty ≤ 0))).map (fun a => |a.qty|)).sum
    totalValue := (xs.map (fun a => |a.amount.getD 0|)).sum
    thisMonth := xs.countP (createdInMonth parseDate month year) }

/-- A date parser that knows two timestamps: one in May 2024 and one in April
2024 (`getMonth()` counts from 0). -/
def sampleParseDate (text : String) : Option JsDate :=
  if text = "2024-05-10T08:00:00.000Z" then some { month := 4, fullYear := 2024 }
  else if text = "2024-04-28T17:30:00.000Z" then some { month := 3, fullYear := 2024 }
  else none

/-- A clock reading in May 2024. -/
def sampleNow : JsDate :=
  { month := 4, fullYear := 2024 }

/-- Stock-in of 5 with amount 50, created in May 2024. -/
def stockInThisMonth : Adjustment :=
  { sampleAdjustment with
    qty := 5
    amount := some 50
    created_at := some "2024-05-10T08:00:00.000Z" }

/-- Stock-out of 3 with amount 30, created in April 2024. -/
def stockOutLastMonth : Adjustment :=
  { sampleAdjustment with
    id := Id.num 8
    qty := -3
    amount := some 30
    created_at := some "2024-04-28T17:30:00.000Z" }

/-- A state whose adjustments are the stock-in of this month and the stock-out
of last month. -/
def statsState : State :=
  { initialState with
    adjustments := [stockInThisMonth, stockOutLastMonth]
    adjustmentTotal := 2 }

/-! ## Search as the specification words it -/

/-- The lower-cased query is a substring of the lower-cased title, of the
lower-cased SKU or of the lower-cased description of the product. -/
def MatchesQuery (toLowerCase : String → String) (query : String) (p : Product) : Prop :=
  ∃ text, (p.title = some text ∨ p.sku = some text ∨ p.description = some text) ∧
    (toLowerCase query).data <:+: (toLowerCase text).data

/-- Lower-casing of the letters A to Z, character by character. -/
def asciiLower (text : String) : String :=
  String.mk (text.data.map Char.toLower)

/-- A product that has neither title nor SKU nor description. -/
def bareProduct : Product :=
  { id := Id.num 3
    title := none
    sku := none
    description := none
    image := none
    price := 1
    stock := 0 }

/-- The sample products followed by the bare product. -/
def searchState : State :=
  { initialState with products := [sampleProduct, otherProduct, bareProduct] }

/-! ## Operations as data

The synchronous operations of the store, grouped as in the source, so that a
sequence of calls is a list. -/

/-- The operations of the products section (lines 38 to 88 and 141 to 149). -/
inductive ProductOp where
  | setProducts (products : ArrayArg Product)
  | addProducts (newProducts : ArrayArg Product)
  | addProduct (product : Product)
  | updateProduct (id : Id) (updatedProduct : ProductPatch)
  | deleteProduct (id : Id)
  | setProductLoading (loading : Bool)
  | setProductPage (page : Int)
  | setProductHasMore (hasMore : Bool)
  | resetProducts
  deriving DecidableEq, Repr

/-- The operations of the adjustments section (lines 154 to 220). -/
inductive AdjustmentOp where
  | setAdjustments (adjustments : ArrayArg Adjustment)
  | addAdjustments (newAdjustments : ArrayArg Adjustment)
  | addAdjustment (adjustment : Adjustment)
  | updateAdjustment (id : Id) (updatedAdjustment : AdjustmentPatch)
  | deleteAdjustment (id : Id)
  | setAdjustmentLoading (loading : Bool)
  | setAdjustmentPage (page : Int)
  | setAdjustmentTotal (total : Int)
  | setAdjustmentHasMore (hasMore : Bool)
  | resetAdjustments
  deriving DecidableEq, Repr

/-- The modal operations (lines 225 to 302 and 388 to 398). -/
inductive ModalOp where
  | openProductModal (product : Option Product)
  | closeProductModal
  | openProductDetail (product : Product)
  | closeProductDetail
  | openAdjustmentModal (adjustment : Option Adjustment) (mode : String)
  | closeAdjustmentModal
  | setAdjustmentModalMode (mode : String)
  | closeAllModals
  deriving DecidableEq, Repr

/-- Any state-changing operation of the store, hydration included: the persist
layer replaces the state by `merge` of the stored snapshot and the current
state. -/
inductive Op where
  | product (op : ProductOp)
  | adjustment (op : AdjustmentOp)
  | modal (op : ModalOp)
  | clearAllData
  | hydrate (persistedState : PersistedState)
  deriving DecidableEq, Repr

/-- Effect of a product operation. -/
def applyProductOp (s : State) : ProductOp → State
  | .setProducts products => setProducts s products
  | .addProducts newProducts => addProducts s newProducts
  | .addProduct product => addProduct s product
  | .updateProduct id updatedProduct => updateProduct s id updatedProduct
  | .deleteProduct id => deleteProduct s id
  | .setProductLoading loading => setProductLoading s loading
  | .setProductPage page => setProductPage s page
  | .setProductHasMore hasMore => setProductHasMore s hasMore
  | .resetProducts => resetProducts s

/-- Effect of an adjustment operation. -/
def applyAdjustmentOp (s : State) : AdjustmentOp → State
  | .setAdjustments adjustments => setAdjustments s adjustments
  | .addAdjustments newAdjustments => addAdjustments s newAdjustments
  | .addAdjustment adjustment => addAdjustment s adjustment
  | .updateAdjustment id updatedAdjustment => updateAdjustment s id updatedAdjustment
  | .deleteAdjustment id => deleteAdjustment s id
  | .setAdjustmentLoading loading => setAdjustmentLoading s loading
  | .setAdjustmentPage page => setAdjustmentPage s page
  | .setAdjustmentTotal total => setAdjustmentTotal s total
  | .setAdjustmentHasMore hasMore => setAdjustmentHasMore s hasMore
  | .resetAdjustments => resetAdjustments s

/-- Effect of a modal operation. -/
def applyModalOp (s : State) : ModalOp → State
  | .openProductModal product => openProductModal s product
  | .closeProductModal => closeProductModal s
  | .openProductDetail product => openProductDetail s product
  | .closeProductDetail => closeProductDetail s
  | .openAdjustmentModal adjustment mode => openAdjustmentModal s adjustment mode
  | .closeAdjustmentModal => closeAdjustmentModal s
  | .setAdjustmentModalMode mode => setAdjustmentModalMode s mode
  | .closeAllModals => closeAllModals s

/-- Effect of any operation. -/
def applyOp (s : State) : Op → State
  | .product op => applyProductOp s op
  | .adjustment op => applyAdjustmentOp s op
  | .modal op => applyModalOp s op
  | .clearAllData => clearAllData s
  | .hydrate persistedState => merge persistedState s

/-- The state after the operations `ops` were called in order, from `s`. -/
def run (s : State) (ops : List Op) : State :=
  ops.foldl applyOp s

/-- A state is reachable when some finite sequence of operations leads to it
from the initial state. -/
def Reachable (s : State) : Prop :=
  ∃ ops : List Op, run initialState ops = s

/-- The cursor, collection and loading properties of the products section. -/
def productPart (s : State) : List Product × Int × Bool × Bool :=
  (s.products, s.productPage, s.productHasMore, s.productLoading)

/-- The cursor, collection and loading properties of the adjustments section. -/
def adjustmentPart (s : State) : List Adjustment × Int × Int × Bool × Bool :=
  (s.adjustments, s.adjustmentPage, s.adjustmentTotal, s.adjustmentHasMore,
    s.adjustmentLoading)

/-- The modal properties: the three open flags, the mode and the selections. -/
def modalPart (s : State) : Bool × Bool × Bool × String × Option Product × Option Adjustment :=
  (s.isProductModalOpen, s.isProductDetailOpen, s.isAdjustmentModalOpen,
    s.adjustmentModalMode, s.selectedProduct, s.selectedAdjustment)

/-- The modal state machine is in `Closed`: no modal reports open. -/
def isClosed (s : State) : Bool :=
  !s.isProductModalOpen && !s.isProductDetailOpen && !s.isAdjustmentModalOpen

/-- The state reached by opening the detail modal on the sample product. -/
def detailOpenState : State :=
  run initialState [Op.modal (ModalOp.openProductDetail sampleProduct)]

/-- The state reached by opening the product modal on the sample product. -/
def productOpenState : State :=
  run initialState [Op.modal (ModalOp.openProductModal (some sampleProduct))]

/-- The state reached by opening the adjustment modal on the sample adjustment
in view mode. -/
def adjustmentOpenState : State :=
  run initialState [Op.modal (ModalOp.openAdjustmentModal (some sampleAdjustment) "view")]

/-- A second product with identifier 1, different from the sample product. -/
def duplicateProduct : Product :=
  { sampleProduct with title := some "Green Mug", stock := 9 }

/-- A second adjustment with identifier 7, different from the sample
adjustment. -/
def duplicateAdjustment : Adjustment :=
  { sampleAdjustment with qty := -2, amount := some 24 }

/-! ## Adjustment table (src/src/components/features/adjustments/AdjustmentTable.js) -/

/-- The object that describes a transaction type in the views. -/
structure TypeInfo where
  type : String
  color : String
  icon : String
  deriving DecidableEq, Repr

/-- The comparison `amount > 0` for an amount that may be absent: `undefined`
and `null` are not greater than 0. -/
def amountPositive (amount : Option Rat) : Bool :=
  match amount with
  | none => false
  | some value => decide (0 < value)

/-- Helper `getAdjustmentType` of the table (lines 147 to 157). -/
def getAdjustmentType (qty : Int) (amount : Option Rat) : TypeInfo :=
  if qty > 0 ∨ amountPositive amount = true then
    { type := "Stock In", color := "bg-green-100 text-green-800", icon := "+" }
  else
    { type := "Stock Out", color := "bg-red-100 text-red-800", icon := "-" }

/-- The `typeInfo` of the view mode of the adjustment modal
(AdjustmentModal.js, lines 227 to 230). -/
def viewTypeInfo (selectedAdjustment : Adjustment) : TypeInfo :=
  if selectedAdjustment.qty > 0 then
    { type := "Stock In", color := "text-green-600 bg-green-50", icon := "+" }
  else
    { type := "Stock Out", color := "text-red-600 bg-red-50", icon := "-" }

/-- The page number of slot `i` of the pagination (lines 400 to 411); `none` is
the `return null` for a page outside `1..totalPages`. -/
def pageButton (totalPages adjustmentPage : Int) (i : Nat) : Option Int :=
  let page : Int :=
    if totalPages ≤ 5 then (i : Int) + 1
    else if adjustmentPage ≤ 3 then (i : Int) + 1
    else if adjustmentPage ≥ totalPages - 2 then totalPages - 4 + (i : Int)
    else adjustmentPage - 2 + (i : Int)
  if page < 1 ∨ page > totalPages then none else some page

/-- The expression `Array.from({ length: Math.min(5, totalPages) }, ...)` (lines
399 to 426): a negative length yields no slot. -/
def pageSlots (totalPages adjustmentPage : Int) : List (Option Int) :=
  (List.range (min 5 totalPages).toNat).map (pageButton totalPages adjustmentPage)

/-- The constant `itemsPerPage` (line 26). -/
def itemsPerPage : Int :=
  10

/-- The value `totalPages` (line 127): `Math.ceil(adjustmentTotal / itemsPerPage)`. -/
def totalPages (adjustmentTotal : Int) : Int :=
  Int.ceil ((adjustmentTotal : Rat) / (itemsPerPage : Rat))

/-- The page-number buttons that the table renders for a state of the store.
The expression of line 399 is evaluated only in the branch of a table that is
not loading and holds at least one adjustment (lines 219 to 223), and there only
under `totalPages > 1 &&` (line 380); otherwise there is no button. -/
def pageButtons (s : State) : List (Option Int) :=
  if s.adjustmentLoading then []
  else if s.adjustments.length > 0 then
    if totalPages s.adjustmentTotal > 1 then
      pageSlots (totalPages s.adjustmentTotal) s.adjustmentPage
    else []
  else []

/-- First page of the window as the claim words it: 1 near the start,
`totalPages - 4` near the end and `adjustmentPage - 2` otherwise. -/
def windowStart (totalPages adjustmentPage : Int) : Int :=
  if totalPages ≤ 5 ∨ adjustmentPage ≤ 3 then 1
  else if adjustmentPage ≥ totalPages - 2 then totalPages - 4
  else adjustmentPage - 2

/-- A state that holds only the stock-out of 3 with the positive amount 30. -/
def stockOutState : State :=
  { initialState with
    adjustments := [stockOutLastMonth]
    adjustmentTotal := 1 }

/-! ## Built-in functions of the language

The component code calls `trim`, `parseInt`, `isNaN` and `parseFloat` on form
strings.  They are modelled on lists of characters after the grammar of the
language standard; a number that is `NaN` is `none` for `parseInt`. -/

/-- White space and line terminators, by code point. -/
def isJsWhitespace (c : Char) : Bool :=
  [9, 10, 11, 12, 13, 32, 160, 5760, 8192, 8193, 8194, 8195, 8196, 8197, 8198, 8199, 8200,
    8201, 8202, 8232, 8233, 8239, 8287, 12288, 65279].contains c.toNat

/-- The string method `trim`. -/
def trim (text : String) : String :=
  String.mk ((text.data.dropWhile isJsWhitespace).reverse.dropWhile isJsWhitespace).reverse

/-- Value of a character as a digit of the given radix, if it is one. -/
def digitValue (radix : Nat) (c : Char) : Option Nat :=
  let n := c.toNat
  let value : Option Nat :=
    if 48 ≤ n ∧ n ≤ 57 then some (n - 48)
    else if 97 ≤ n ∧ n ≤ 122 then some (n - 97 + 10)
    else if 65 ≤ n ∧ n ≤ 90 then some (n - 65 + 10)
    else none
  match value with
  | some v => if v < radix then some v else none
  | none => none

/-- The digits of the longest run of radix digits at the start of the input,
and the rest of the input. -/
def takeDigits (radix : Nat) : List Char → List Nat × List Char
  | [] => ([], [])
  | c :: rest =>
    match digitValue radix c with
    | some v => ((takeDigits radix rest).1.cons v, (takeDigits radix rest).2)
    | none => ([], c :: rest)

/-- The number written by a list of digits. -/
def digitsToNat (radix : Nat) (digits : List Nat) : Nat :=
  digits.foldl (fun acc d => acc * radix + d) 0

/-- An optional sign at the start of the input: whether it is a minus, and the
rest. -/
def takeSign : List Char → Bool × List Char
  | c :: rest => if c.toNat = 45 then (true, rest) else if c.toNat = 43 then (false, rest)
    else (false, c :: rest)
  | [] => (false, [])

/-- Whether the input starts with `0x` or `0X`, and the input behind it. -/
def takeHexMark : List Char → Option (List Char)
  | c :: d :: rest => if c.toNat = 48 ∧ (d.toNat = 120 ∨ d.toNat = 88) then some rest else none
  | _ => none

/-- The function `parseInt` without a radix argument: leading white space, an
optional sign, an optional `0x`, then the longest run of digits; `none` is
`NaN`. -/
def parseInt (text : String) : Option Int :=
  let trimmed := text.data.dropWhile isJsWhitespace
  let signed := takeSign trimmed
  let radix : Nat := if (takeHexMark signed.2).isSome then 16 else 10
  let body := (takeHexMark signed.2).getD signed.2
  let digits := (takeDigits radix body).1
  if digits.isEmpty then none
  else if signed.1 then some (-(digitsToNat radix digits : Int))
  else some (digitsToNat radix digits : Int)

/-- An exponent part `e`, optional sign, digits, up to the end of the input; the
empty input counts as no exponent part. -/
def isExponentOrEnd : List Char → Bool
  | [] => true
  | c :: rest =>
    (c.toNat = 101 || c.toNat = 69) &&
      !(takeDigits 10 (takeSign rest).2).1.isEmpty && (takeDigits 10 (takeSign rest).2).2.isEmpty

/-- The whole input is an unsigned decimal literal of the string-to-number
grammar: `Infinity`, or digits with an optional fraction and exponent. -/
def isUnsignedDecimal (input : List Char) : Bool :=
  input = "Infinity".data ||
    (match (takeDigits 10 input).2 with
      | c :: rest =>
        if c.toNat = 46 then
          (!(takeDigits 10 input).1.isEmpty || !(takeDigits 10 rest).1.isEmpty) &&
            isExponentOrEnd (takeDigits 10 rest).2
        else !(takeDigits 10 input).1.isEmpty && isExponentOrEnd (c :: rest)
      | [] => !(takeDigits 10 input).1.isEmpty)

/-- The whole input is a binary, octal or hexadecimal integer literal. -/
def isNonDecimalInteger : List Char → Bool
  | c :: d :: rest =>
    c.toNat = 48 && !rest.isEmpty &&
      ((d.toNat = 120 || d.toNat = 88) && (takeDigits 16 rest).2.isEmpty ||
        (d.toNat = 111 || d.toNat = 79) && (takeDigits 8 rest).2.isEmpty ||
        (d.toNat = 98 || d.toNat = 66) && (takeDigits 2 rest).2.isEmpty)
  | _ => false

/-- The function `isNaN` on a string: the conversion to a number fails unless
the string, white space trimmed, is empty, a signed decimal literal or an
unsigned binary, octal or hexadecimal integer literal. -/
def isNaN (text : String) : Bool :=
  let body := (trim text).data
  !(body.isEmpty || isUnsignedDecimal (takeSign body).2 || isNonDecimalInteger body)

/-- A number as `parseFloat` returns it. -/
inductive JsNumber where
  | nan
  | infinity (negative : Bool)
  | finite (value : Rat)
  deriving DecidableEq, Repr

/-- Digits behind an exponent mark at the start of the input, as a signed
exponent; 0 when the input does not start with an exponent part. -/
def takeExponent : List Char → Int
  | [] => 0
  | c :: rest =>
    if (c.toNat = 101 ∨ c.toNat = 69) ∧ ¬ (takeDigits 10 (takeSign rest).2).1.isEmpty then
      if (takeSign rest).1 then -(digitsToNat 10 (takeDigits 10 (takeSign rest).2).1 : Int)
      else (digitsToNat 10 (takeDigits 10 (takeSign rest).2).1 : Int)
    else 0

/-- The rational `mantissa × 10 ^ exponent`. -/
def scaleByTen (mantissa : Nat) (exponent : Int) : Rat :=
  if 0 ≤ exponent then ((mantissa * 10 ^ exponent.toNat : Nat) : Rat)
  else mkRat (mantissa : Int) (10 ^ (-exponent).toNat)

/-- The function `parseFloat`: leading white space, then the longest start of
the input that is a signed decimal literal; `nan` when there is none. -/
def parseFloat (text : String) : JsNumber :=
  let signed := takeSign (text.data.dropWhile isJsWhitespace)
  if "Infinity".data.isPrefixOf signed.2 then JsNumber.infinity signed.1
  else
    let whole := takeDigits 10 signed.2
    let fraction : List Nat × List Char :=
      match whole.2 with
      | c :: rest => if c.toNat = 46 then takeDigits 10 rest else ([], c :: rest)
      | [] => ([], [])
    if whole.1.isEmpty && fraction.1.isEmpty then JsNumber.nan
    else
      let magnitude := scaleByTen (digitsToNat 10 (whole.1 ++ fraction.1))
        (takeExponent fraction.2 - (fraction.1.length : Int))
      JsNumber.finite (if signed.1 then -magnitude else magnitude)

/-! ## HTTP client contract (src/src/utils/api.js)

Every call of the client either raises an error or returns the parsed body of
the response.  The outcome of a call is an input of the code that awaits it. -/

/-- Outcome of an awaited call: it raised, or it returned a body (`none` is a
`null` body). -/
inductive HttpOutcome (α : Type) where
  | threw (message : String)
  | returned (response : Option α)
  deriving DecidableEq, Repr

/-- Body of `fetchProducts`: `success`, `data` and `pagination?.hasNextPage`. -/
structure ProductsPage where
  success : Bool
  data : Option (List Product)
  hasNextPage : Option Bool
  deriving DecidableEq, Repr

/-- Body of `fetchAdjustments`: `success`, `data` and `pagination?.total`. -/
structure AdjustmentsPage where
  success : Bool
  data : Option (List Adjustment)
  total : Option Int
  deriving DecidableEq, Repr

/-- Body of a create or update call: `success`, `message` and `data`. -/
structure ApiResponse (α : Type) where
  success : Bool
  message : Option String
  data : Option α
  deriving DecidableEq, Repr

/-- The `data` of `createAdjustment`: an object that may carry an `id`. -/
structure CreatedData where
  id : Option Id
  deriving DecidableEq, Repr

/-! ## Page loaders -/

/-- Loader `loadAdjustments` of the adjustment table (AdjustmentTable.js, lines
29 to 57), as the sequence of store operations it performs for a given outcome
of `fetchAdjustments`.  The loading flag it tests is the one of the state it is
called in. -/
def AdjustmentTable.loadAdjustments (s : State) (page : Int)
    (outcome : HttpOutcome AdjustmentsPage) : State :=
  if s.adjustmentLoading then s
  else
    let loading := setAdjustmentLoading s true
    let settled :=
      match outcome with
      | .returned (some response) =>
        match response.success, response.data with
        | true, some data =>
          setAdjustmentPage
            (setAdjustmentTotal (setAdjustments loading (ArrayArg.array data))
              (response.total.getD 0))
            page
        | _, _ => loading
      | .returned none => loading
      | .threw _ => setAdjustmentTotal (setAdjustments loading (ArrayArg.array [])) 0
    setAdjustmentLoading settled false

/-- Loader `loadProducts` of the product list (ProductList.js, lines 27 to 61). -/
def ProductList.loadProducts (s : State) (page : Int) (reset : Bool)
    (outcome : HttpOutcome ProductsPage) : State :=
  if s.productLoading then s
  else
    let loading := setProductLoading s true
    let settled :=
      match outcome with
      | .returned (some response) =>
        match response.success, response.data with
        | true, some newProducts =>
          let filled :=
            if reset = true ∨ page = 1 then setProducts loading (ArrayArg.array newProducts)
            else addProducts loading (ArrayArg.array newProducts)
          setProductHasMore (setProductPage filled page) (response.hasNextPage.getD false)
        | _, _ => loading
      | .returned none => loading
      | .threw _ => loading
    setProductLoading settled false

/-- The `while (hasMore && page <= maxPages)` loop of `loadAllProducts`
(useStore.js, lines 107 to 123).  `pagesLeft` is `maxPages - page + 1`, so the
loop condition `page <= maxPages` is `pagesLeft > 0`; the recursion is entered
only while `hasMore` holds.  `none` means that a call raised. -/
def loadAllPages (fetchProducts : Nat → HttpOutcome ProductsPage) :
    (pagesLeft : Nat) → (page : Nat) → (allProducts : List Product) → Option (List Product)
  | 0, _, allProducts => some allProducts
  | pagesLeft + 1, page, allProducts =>
    match fetchProducts page with
    | .threw _ => none
    | .returned none => some allProducts
    | .returned (some response) =>
      match response.success, response.data with
      | true, some data =>
        if response.hasNextPage.getD false then
          loadAllPages fetchProducts pagesLeft (page + 1) (allProducts ++ data)
        else some (allProducts ++ data)
      | _, _ => some allProducts

/-- Action `loadAllProducts` (useStore.js, lines 90 to 138): the state after it
and the list it returns.  `fetchProducts page` is the outcome of the call for
that page, with 50 products per page and at most 10 pages. -/
def loadAllProducts (s : State) (fetchProducts : Nat → HttpOutcome ProductsPage) :
    State × List Product :=
  if s.productLoading then (s, s.products)
  else
    let loading := setProductLoading s true
    match loadAllPages fetchProducts 10 1 [] with
    | some allProducts =>
      (setProductLoading (setProducts loading (ArrayArg.array allProducts)) false, allProducts)
    | none => (setProductLoading (setProducts loading (ArrayArg.array [])) false, [])

/-! ## Product form (src/src/components/features/products/ProductModal.js) -/

/-- The component state `formData` of the product modal: six strings. -/
structure ProductForm where
  title : String
  sku : String
  description : String
  image : String
  price : String
  stock : String
  deriving DecidableEq, Repr

/-- The test `/^[A-Z0-9-]+$/i`: one or more letters A to Z in either case,
digits or dashes, and nothing else. -/
def isSkuPattern (value : String) : Bool :=
  !value.data.isEmpty && value.data.all (fun c =>
    (65 ≤ c.toNat && c.toNat ≤ 90) || (97 ≤ c.toNat && c.toNat ≤ 122) ||
      (48 ≤ c.toNat && c.toNat ≤ 57) || c.toNat = 45)

/-- The comparison `price <= 0` of a parsed price. -/
def JsNumber.leZero : JsNumber → Bool
  | .nan => false
  | .infinity negative => negative
  | .finite value => decide (value ≤ 0)

/-- The comparison `price > 999999` of a parsed price. -/
def JsNumber.gtLimit : JsNumber → Bool
  | .nan => false
  | .infinity negative => !negative
  | .finite value => decide (value > 999999)

/-- Function `validateField` (lines 60 to 95): the error message for one field,
the empty string when there is none.  `isValidUrl` (lines 97 to 104) wraps the
URL constructor of the platform and is a parameter.  The field `stock` has no
case of its own and falls to `default`. -/
def ProductModal.validateField (isValidUrl : String → Bool) (name value : String) : String :=
  if name = "title" then
    if trim value = "" then "Product title is required"
    else if value.length < 2 then "Title must be at least 2 characters"
    else if value.length > 100 then "Title must be less than 100 characters"
    else ""
  else if name = "sku" then
    if trim value = "" then "SKU is required"
    else if !isSkuPattern value then "SKU can only contain letters, numbers, and dashes"
    else if value.length < 3 then "SKU must be at least 3 characters"
    else ""
  else if name = "description" then
    if value ≠ "" ∧ value.length > 500 then "Description must be less than 500 characters"
    else ""
  else if name = "price" then
    if value = "" then "Price is required"
    else if parseFloat value = JsNumber.nan then "Price must be a valid number"
    else if (parseFloat value).leZero then "Price must be greater than 0"
    else if (parseFloat value).gtLimit then "Price cannot exceed $999,999"
    else ""
  else if name = "image" then
    if value ≠ "" ∧ !isValidUrl value then "Please enter a valid URL"
    else ""
  else ""

/-- The keys of `formData` with their values, in the order of `Object.keys`. -/
def ProductForm.entries (formData : ProductForm) : List (String × String) :=
  [("title", formData.title), ("sku", formData.sku), ("description", formData.description),
    ("image", formData.image), ("price", formData.price), ("stock", formData.stock)]

/-- Function `validateForm` (lines 106 to 114): no field has an error. -/
def ProductModal.validateForm (isValidUrl : String → Bool) (formData : ProductForm) : Bool :=
  formData.entries.all (fun entry => ProductModal.validateField isValidUrl entry.1 entry.2 = "")

/-- The object `productData` that `handleSubmit` builds (lines 163 to 170). -/
structure ProductData where
  title : String
  sku : String
  description : String
  image : String
  price : JsNumber
  stock : Option Int
  deriving DecidableEq, Repr

/-- Construction of `productData` (lines 163 to 170); the string method
`toUpperCase` is a parameter. -/
def ProductModal.productData (toUpperCase : String → String) (formData : ProductForm) :
    ProductData :=
  { title := trim formData.title
    sku := toUpperCase (trim formData.sku)
    description := trim formData.description
    image := trim formData.image
    price := parseFloat formData.price
    stock := parseInt formData.stock }

/-- The object `productData` as the second operand of a spread.  A price or a
stock that is no finite number cannot be held by a product of the data model;
the result is `none` then. -/
def ProductData.toPatch (data : ProductData) : Option ProductPatch :=
  match data.price, data.stock with
  | .finite price, some stock =>
    some
      { id := none
        title := some (some data.title)
        sku := some (some data.sku)
        description := some (some data.description)
        image := some (some data.image)
        price := some price
        stock := some stock }
  | _, _ => none

/-- The object `{ ...productData, id: Date.now() }`, under the same proviso as
`ProductData.toPatch`. -/
def ProductData.toProduct (data : ProductData) (id : Id) : Option Product :=
  match data.price, data.stock with
  | .finite price, some stock =>
    some
      { id := id
        title := some data.title
        sku := some data.sku
        description := some data.description
        image := some data.image
        price := price
        stock := stock }
  | _, _ => none

/-- Handler `handleSubmit` of the product modal (lines 148 to 190), as its
effect on the store.  `updateOutcome` and `createOutcome` are the outcomes of
the call the handler awaits in edit mode and in create mode, `now` is
`Date.now()`.  The result is `none` when the entity written holds a price or a
stock that is no finite number. -/
def ProductModal.handleSubmit (isValidUrl : String → Bool) (toUpperCase : String → String)
    (s : State) (formData : ProductForm)
    (updateOutcome : HttpOutcome (ApiResponse ProductPatch))
    (createOutcome : HttpOutcome (ApiResponse Product)) (now : Int) : Option State :=
  if !ProductModal.validateForm isValidUrl formData then some s
  else
    let productData := ProductModal.productData toUpperCase formData
    match s.selectedProduct with
    | some selectedProduct =>
      match updateOutcome with
      | .threw _ => some s
      | .returned none => some s
      | .returned (some response) =>
        match response.data with
        | some data => some (closeProductModal (updateProduct s selectedProduct.id data))
        | none =>
          productData.toPatch.map
            (fun data => closeProductModal (updateProduct s selectedProduct.id data))
    | none =>
      match createOutcome with
      | .threw _ => some s
      | .returned none => some s
      | .returned (some response) =>
        match response.data with
        | some data => some (closeProductModal (addProduct s data))
        | none =>
          (productData.toProduct (Id.num now)).map
            (fun data => closeProductModal (addProduct s data))

/-! ## Adjustment form (src/src/components/features/adjustments/AdjustmentModal.js) -/

/-- The component state `formData` of the adjustment modal: `qty` is a string,
`product_id` is absent until a product is chosen. -/
structure AdjustmentForm where
  product_id : Option String
  qty : String
  deriving DecidableEq, Repr

/-- Function `validateForm` (lines 107 to 120) for the modal mode `mode`: no
error was recorded. -/
def AdjustmentModal.validateForm (mode : String) (formData : AdjustmentForm) : Bool :=
  let isCreateMode := decide (mode = "create")
  let productMissing := isCreateMode &&
    (decide (formData.product_id = none) || decide (formData.product_id = some ""))
  let qtyMissing := decide (formData.qty = "")
  let qtyInvalid := decide (formData.qty ≠ "") &&
    (isNaN formData.qty || decide (parseInt formData.qty = some 0))
  !(productMissing || qtyMissing || qtyInvalid)

/-- The string of an identifier, `id.toString()`. -/
def Id.toString : Id → String
  | .num n => ToString.toString n
  | .str text => text

/-- Truthiness of an optional identifier, as in `response.data?.id || ...`. -/
def idOr (id : Option Id) (fallback : Id) : Id :=
  match id with
  | some (.num n) => if n = 0 then fallback else Id.num n
  | some (.str text) => if text = "" then fallback else Id.str text
  | none => fallback

/-- The operator `||` on an optional string with a string fallback. -/
def textOr (text : Option String) (fallback : String) : String :=
  match text with
  | some value => if value = "" then fallback else value
  | none => fallback

/-- The object `updatedAdjustment` of the edit branch (lines 157 to 163), for
the quantity `qty` that `parseInt(formData.qty)` yields. -/
def AdjustmentModal.updatedAdjustment (selectedAdjustment : Adjustment) (qty : Int) :
    Adjustment :=
  { selectedAdjustment with
    qty := qty
    amount := some ((|qty| : Int) * selectedAdjustment.price.getD 0) }

/-- The object `adjustmentForStore` of the create branch (lines 170 to 181), for
the quantity `qty` that `parseInt(formData.qty)` yields.  A `product_id` that
does not parse to a number is stored as absent. -/
def AdjustmentModal.adjustmentForStore (selectedProduct : Option Product)
    (responseId : Option Id) (now : Int) (nowIso : String) (qty : Int)
    (product_id : Option String) : Adjustment :=
  { id := idOr responseId (Id.num now)
    sku := some (textOr (selectedProduct.bind (fun p => p.sku)) "N/A")
    title := some (textOr (selectedProduct.bind (fun p => p.title)) "Unknown Product")
    image := (selectedProduct.bind (fun p => p.image)).filter (fun url => url ≠ "")
    price := some ((selectedProduct.map (fun p => p.price)).getD 0)
    qty := qty
    amount := some ((|qty| : Int) * (selectedProduct.map (fun p => p.price)).getD 0)
    created_at := some nowIso
    product_id := (parseInt (product_id.getD "undefined")).map Id.num }

/-- Which of its optional properties an adjustment object has even when they
hold no value (`null` or `undefined`).  A record of the data model does not
tell a property that holds no value from an absent one; the object spread
does: it copies the first and skips the second. -/
structure OwnProps where
  sku : Bool
  title : Bool
  image : Bool
  price : Bool
  amount : Bool
  created_at : Bool
  product_id : Bool
  deriving DecidableEq, Repr

/-- What one optional property of an object contributes to a spread: its value
when it has one, the empty value when the object has the property without a
value, and nothing when the property is absent. -/
def ownValue {α : Type} (held : Bool) (value : Option α) : Option (Option α) :=
  match value with
  | some v => some (some v)
  | none => if held then some none else none

/-- An adjustment object as the second operand of a spread: only the
properties that the object itself has are defined.  `id` and `qty` are
properties of every record of the data model. -/
def Adjustment.toPatch (a : Adjustment) (own : OwnProps) : AdjustmentPatch :=
  { id := some a.id
    sku := ownValue own.sku a.sku
    title := ownValue own.title a.title
    image := ownValue own.image a.image
    price := ownValue own.price a.price
    qty := some a.qty
    amount := ownValue own.amount a.amount
    created_at := ownValue own.created_at a.created_at
    product_id := ownValue own.product_id a.product_id }

/-- Handler `handleSubmit` of the adjustment modal (lines 122 to 206), as its
effect on the store.  `products` is the component state of that name, `outcome`
the outcome of the call the handler awaits, `now` and `nowIso` are `Date.now()`
and `new Date().toISOString()`.  In edit mode without a selection the read of
`selectedAdjustment.id` raises inside the `try` and the store is left alone.
`selectionProps` says which properties the selected object has without a value;
it matters only to the spread `{ ...selectedAdjustment, qty, amount }` of the
edit branch.  The result is `none` when the quantity written is `NaN`. -/
def AdjustmentModal.handleSubmit (s : State) (selectionProps : OwnProps)
    (formData : AdjustmentForm) (products : List Product)
    (outcome : HttpOutcome (ApiResponse CreatedData)) (now : Int) (nowIso : String) :
    Option State :=
  let isEditMode := decide (s.adjustmentModalMode = "edit")
  if !AdjustmentModal.validateForm s.adjustmentModalMode formData then some s
  else if isEditMode then
    match s.selectedAdjustment with
    | none => some s
    | some selectedAdjustment =>
      match outcome with
      | .threw _ => some s
      | .returned none => some s
      | .returned (some response) =>
        if response.success then
          (parseInt formData.qty).map (fun qty =>
            closeAdjustmentModal
              (updateAdjustment s selectedAdjustment.id
                ((AdjustmentModal.updatedAdjustment selectedAdjustment qty).toPatch
                  selectionProps)))
        else some s
  else
    match outcome with
    | .threw _ => some s
    | .returned none => some s
    | .returned (some response) =>
      if response.success then
        (parseInt formData.qty).map (fun qty =>
          closeAdjustmentModal
            (addAdjustment s
              (AdjustmentModal.adjustmentForStore
                (products.find? (fun p => decide (some p.id.toString = formData.product_id)))
                (response.data.bind (fun data => data.id)) now nowIso qty
                formData.product_id)))
      else some s

/-- A client whose first call raises. -/
def failingFetch (_page : Nat) : HttpOutcome ProductsPage :=
  HttpOutcome.threw "Failed to fetch"

/-- A client that returns the sample product with a next page for page 1 and
raises for page 2. -/
def secondPageFails (page : Nat) : HttpOutcome ProductsPage :=
  if page = 1 then
    HttpOutcome.returned
      (some { success := true, data := some [sampleProduct], hasNextPage := some true })
  else HttpOutcome.threw "Failed to fetch"

/-! ## Sample forms and responses -/

/-- Upper-casing of the letters a to z, character by character. -/
def asciiUpper (text : String) : String :=
  String.mk (text.data.map Char.toUpper)

/-- A URL test that accepts every string. -/
def anyUrl (_text : String) : Bool :=
  true

/-- The product form in create mode with valid title, SKU and price; the stock
is the empty string the form starts with. -/
def createForm : ProductForm :=
  { title := "Blue Mug"
    sku := "mug-001"
    description := ""
    image := ""
    price := "12"
    stock := "" }

/-- The product form in edit mode on the sample product, with a new title. -/
def editForm : ProductForm :=
  { title := "Blue Mug XL"
    sku := "MUG-001"
    description := ""
    image := ""
    price := "12"
    stock := "4" }

/-- A body with `success: false` and a message, without data. -/
def rejectedUpdate : ApiResponse ProductPatch :=
  { success := false
    message := some "Update rejected"
    data := none }

/-- A body with `success: false` and a message, without data. -/
def rejectedCreate : ApiResponse Product :=
  { success := false
    message := some "Create rejected"
    data := none }

/-- A body with `success: true` and the identifier 9. -/
def acceptedAdjustment : ApiResponse CreatedData :=
  { success := true
    message := none
    data := some { id := some (Id.num 9) } }

/-- A body with `success: false`. -/
def rejectedAdjustment : ApiResponse CreatedData :=
  { success := false
    message := some "Insufficient stock"
    data := none }

/-- The adjustment form in create mode: product 1, quantity `.5`. -/
def halfQtyForm : AdjustmentForm :=
  { product_id := some "1"
    qty := ".5" }

/-- The adjustment form in create mode: product 1, quantity `-3`. -/
def stockOutForm : AdjustmentForm :=
  { product_id := some "1"
    qty := "-3" }

/-- The adjustment form in edit mode: quantity `2`. -/
def editQtyForm : AdjustmentForm :=
  { product_id := none
    qty := "2" }

/-- The sample state with the adjustment modal open in create mode. -/
def adjustmentCreateState : State :=
  openAdjustmentModal sampleState none "create"

/-- The amount of an adjustment is derived: the adjustment carries a price and
its amount is `|qty| × price` for that price. -/
def amountDerived (a : Adjustment) : Prop :=
  ∃ price : Rat, a.price = some price ∧ a.amount = some ((|a.qty| : Int) * price)

/-- An object whose properties without a value are all absent. -/
def absentProps : OwnProps :=
  { sku := false
    title := false
    image := false
    price := false
    amount := false
    created_at := false
    product_id := false }

/-- An object that has all its properties, those without a value holding `null`. -/
def nullProps : OwnProps :=
  { sku := true
    title := true
    image := true
    price := true
    amount := true
    created_at := true
    product_id := true }

/-- A selection that is not the stored row: the object `{ id: 7, title: "Blue
Mug", qty: 5 }`, without SKU, image, price, amount, creation time and product
reference. -/
def bareSelection : Adjustment :=
  { id := Id.num 7
    sku := none
    title := some "Blue Mug"
    image := none
    price := none
    qty := 5
    amount := none
    created_at := none
    product_id := none }

/-- The sample state with the adjustment modal open in edit mode on the bare
selection, while the store holds the sample adjustment under identifier 7. -/
def bareEditState : State :=
  openAdjustmentModal sampleState (some bareSelection) "edit"

/-- The sample state with the adjustment modal open in edit mode on a stale copy
of the sample adjustment that carries another SKU and product reference. -/
def staleEditState : State :=
  openAdjustmentModal sampleState
    (some { sampleAdjustment with sku := some "OLD-001", product_id := some (Id.num 2) }) "edit"

/-- The adjustment form in edit mode: quantity `-2`. -/
def minusTwoForm : AdjustmentForm :=
  { product_id := none
    qty := "-2" }

/-- The state after the quantity of the sample adjustment, selected from the
store, was revised to 2 and the call returned success. -/
def editedState : State :=
  (AdjustmentModal.handleSubmit adjustmentEditState absentProps editQtyForm []
    (HttpOutcome.returned (some acceptedAdjustment)) 1700000000000
    "2024-05-11T09:00:00.000Z").getD initialState

/-- The sample state with a total of 115, that is 12 pages, on page 7. -/
def twelvePagesState : State :=
  { sampleState with
    adjustmentTotal := 115
    adjustmentPage := 7 }

/-! # Properties -/

theorem addProductsEach_products (pages : List (List Product)) :
    ∀ s : State, (addProductsEach s pages).products = s.products ++ pages.flatten := by
  induction pages with
  | nil => intro s; simp [addProductsEach]
  | cons page rest ih =>
    intro s
    have h := ih (addProducts s (ArrayArg.array page))
    simp only [addProductsEach, List.foldl_cons] at h ⊢
    rw [h]
    simp [addProducts, ArrayArg.orEmpty]

theorem addAdjustmentsEach_adjustments (pages : List (List Adjustment)) :
    ∀ s : State, (addAdjustmentsEach s pages).adjustments = s.adjustments ++ pages.flatten := by
  induction pages with
  | nil => intro s; simp [addAdjustmentsEach]
  | cons page rest ih =>
    intro s
    have h := ih (addAdjustments s (ArrayArg.array page))
    simp only [addAdjustmentsEach, List.foldl_cons] at h ⊢
    rw [h]
    simp [addAdjustments, ArrayArg.orEmpty]

/-- C1: after `addProducts` (respectively `addAdjustments`) has been called with
the arrays `xs1, ..., xsn` in this order, the collection is the old collection
followed by `xs1 ++ ... ++ xsn`; in particular every item occurs as often as in
the old collection and in the arguments together, so nothing is dropped,
reordered or de-duplicated. -/
theorem addProducts_addAdjustments_sequence (s : State)
    (productPages : List (List Product)) (adjustmentPages : List (List Adjustment)) :
    (addProductsEach s productPages).products = s.products ++ productPages.flatten ∧
    (addAdjustmentsEach s adjustmentPages).adjustments
      = s.adjustments ++ adjustmentPages.flatten ∧
    (∀ x : Product, (addProductsEach s productPages).products.count x
      = s.products.count x + productPages.flatten.count x) ∧
    (∀ x : Adjustment, (addAdjustmentsEach s adjustmentPages).adjustments.count x
      = s.adjustments.count x + adjustmentPages.flatten.count x) := by
  refine ⟨addProductsEach_products productPages s,
    addAdjustmentsEach_adjustments adjustmentPages s, ?_, ?_⟩
  · intro x
    rw [addProductsEach_products, List.count_append]
  · intro x
    rw [addAdjustmentsEach_adjustments, List.count_append]

/-! ## Patching an entity -/

/-- Looking up `id` after every entity that carries `id` went through `f`, for
an `f` that keeps the identifier `id`. -/
theorem find_map_patch {α : Type} (key : α → Id) (f : α → α) (id : Id)
    (hf : ∀ a, key a = id → key (f a) = id) (xs : List α) :
    (xs.map (fun a => if key a = id then f a else a)).find? (fun a => decide (key a = id))
      = (xs.find? (fun a => decide (key a = id))).map f := by
  induction xs with
  | nil => rfl
  | cons x rest ih =>
    by_cases hx : key x = id
    · simp [List.find?, hx, hf x hx]
    · simp [List.find?, hx, ih]

/-- Mapping with a patch that applies to no element changes nothing. -/
theorem map_patch_absent {α : Type} (key : α → Id) (f : α → α) (id : Id) (xs : List α)
    (habsent : ∀ a ∈ xs, key a ≠ id) :
    xs.map (fun a => if key a = id then f a else a) = xs := by
  induction xs with
  | nil => rfl
  | cons x rest ih =>
    have hx : key x ≠ id := habsent x (List.mem_cons_self x rest)
    have hrest : ∀ a ∈ rest, key a ≠ id := fun a ha => habsent a (List.mem_cons_of_mem x ha)
    simp [hx, ih hrest]

theorem productSpread_id_eq (e : Product) (u : ProductPatch) (id : Id)
    (hu : u.id = none ∨ u.id = some id) (he : e.id = id) : (e.spread u).id = id := by
  rcases hu with h | h <;> simp [Product.spread, h, he]

theorem adjustmentSpread_id_eq (e : Adjustment) (u : AdjustmentPatch) (id : Id)
    (hu : u.id = none ∨ u.id = some id) (he : e.id = id) : (e.spread u).id = id := by
  rcases hu with h | h <;> simp [Adjustment.spread, h, he]

/-- C2, as stated, fails: the patch `{ id: 3 }` applied to the product with
identifier 1 moves it to identifier 3, so that looking up 1 afterwards finds
nothing although a product with identifier 1 was present before. -/
theorem updateProduct_getProductById_counterexample :
    getProductById sampleState (Id.num 1) = some sampleProduct ∧
    getProductById
        (updateProduct sampleState (Id.num 1) { emptyProductPatch with id := some (Id.num 3) })
        (Id.num 1) = none ∧
    getProductById
        (updateProduct sampleState (Id.num 1) { emptyProductPatch with id := some (Id.num 3) })
        (Id.num 1)
      ≠ some (sampleProduct.spread { emptyProductPatch with id := some (Id.num 3) }) := by
  decide

/-- C2 (amended): when an entity with identifier `id` is present and the patch
does not define `id` or defines it as the same `id`, then after `updateProduct`
the lookup of `id` returns the entity it returned before with the properties of
the patch laid over it; the same holds for `updateAdjustment` and
`getAdjustmentById`. -/
theorem updateProduct_getProductById (s : State) (id : Id) :
    (∀ (u : ProductPatch) (e : Product), getProductById s id = some e →
      (u.id = none ∨ u.id = some id) →
      getProductById (updateProduct s id u) id = some (e.spread u)) ∧
    (∀ (u : AdjustmentPatch) (a : Adjustment), getAdjustmentById s id = some a →
      (u.id = none ∨ u.id = some id) →
      getAdjustmentById (updateAdjustment s id u) id = some (a.spread u)) := by
  constructor
  · intro u e hfind hu
    have h := find_map_patch Product.id (fun x => x.spread u) id
      (fun x hx => productSpread_id_eq x u id hu hx) s.products
    simp only [getProductById] at hfind
    simp only [getProductById, updateProduct]
    rw [h, hfind]
    rfl
  · intro u a hfind hu
    have h := find_map_patch Adjustment.id (fun x => x.spread u) id
      (fun x hx => adjustmentSpread_id_eq x u id hu hx) s.adjustments
    simp only [getAdjustmentById] at hfind
    simp only [getAdjustmentById, updateAdjustment]
    rw [h, hfind]
    rfl

/-- Witness of C2 (amended): renaming the sample product and patching the
quantity of the sample adjustment. -/
theorem updateProduct_getProductById_witness :
    getProductById
        (updateProduct sampleState (Id.num 1) { emptyProductPatch with title := some (some "Mug") })
        (Id.num 1)
      = some (sampleProduct.spread { emptyProductPatch with title := some (some "Mug") }) ∧
    getAdjustmentById
        (updateAdjustment sampleState (Id.num 7)
          { emptyAdjustmentPatch with id := some (Id.num 7), qty := some 2 })
        (Id.num 7)
      = some (sampleAdjustment.spread
          { emptyAdjustmentPatch with id := some (Id.num 7), qty := some 2 }) :=
  ⟨(updateProduct_getProductById sampleState (Id.num 1)).1
      { emptyProductPatch with title := some (some "Mug") } sampleProduct (by decide)
      (Or.inl (by decide)),
    (updateProduct_getProductById sampleState (Id.num 7)).2
      { emptyAdjustmentPatch with id := some (Id.num 7), qty := some 2 } sampleAdjustment
      (by decide) (Or.inr (by decide))⟩

/-- C3: a patch for an identifier that no entity of the collection carries is
a no-op: `updateProduct` (respectively `updateAdjustment`) returns the state it
was given, so the collection has the same entities in the same order. -/
theorem updateProduct_updateAdjustment_absent (s : State) (id : Id) :
    (∀ u : ProductPatch, (∀ p ∈ s.products, p.id ≠ id) →
      updateProduct s id u = s ∧
      (updateProduct s id u).products = s.products ∧
      (updateProduct s id u).products.length = s.products.length) ∧
    (∀ u : AdjustmentPatch, (∀ a ∈ s.adjustments, a.id ≠ id) →
      updateAdjustment s id u = s ∧
      (updateAdjustment s id u).adjustments = s.adjustments ∧
      (updateAdjustment s id u).adjustments.length = s.adjustments.length) := by
  constructor
  · intro u habsent
    have h : updateProduct s id u = s := by
      simp only [updateProduct]
      rw [map_patch_absent Product.id (fun x => x.spread u) id s.products habsent]
    rw [h]
    exact ⟨rfl, rfl, rfl⟩
  · intro u habsent
    have h : updateAdjustment s id u = s := by
      simp only [updateAdjustment]
      rw [map_patch_absent Adjustment.id (fun x => x.spread u) id s.adjustments habsent]
    rw [h]
    exact ⟨rfl, rfl, rfl⟩

/-- Witness of C3: no entity of the sample state carries the identifier 9. -/
theorem updateProduct_updateAdjustment_absent_witness :
    updateProduct sampleState (Id.num 9) { emptyProductPatch with stock := some 0 }
      = sampleState ∧
    updateAdjustment sampleState (Id.num 9) { emptyAdjustmentPatch with qty := some 1 }
      = sampleState :=
  ⟨((updateProduct_updateAdjustment_absent sampleState (Id.num 9)).1
      { emptyProductPatch with stock := some 0 } (by decide)).1,
    ((updateProduct_updateAdjustment_absent sampleState (Id.num 9)).2
      { emptyAdjustmentPatch with qty := some 1 } (by decide)).1⟩

/-! ## Removing an entity -/

/-- C4: `deleteAdjustment` sets the total to `max 0 (t - 1)` whether or not an
adjustment with the identifier exists: the total drops by exactly 1 from a total
of at least 1, stays 0 from 0, and is never negative after one call or after two
successive calls. -/
theorem deleteAdjustment_total (s : State) (id : Id) :
    (deleteAdjustment s id).adjustmentTotal = max 0 (s.adjustmentTotal - 1) ∧
    (1 ≤ s.adjustmentTotal →
      (deleteAdjustment s id).adjustmentTotal = s.adjustmentTotal - 1) ∧
    (s.adjustmentTotal = 0 → (deleteAdjustment s id).adjustmentTotal = 0) ∧
    0 ≤ (deleteAdjustment s id).adjustmentTotal ∧
    0 ≤ (deleteAdjustment (deleteAdjustment s id) id).adjustmentTotal := by
  refine ⟨rfl, ?_, ?_, ?_, ?_⟩
  · intro h
    simp only [deleteAdjustment]
    omega
  · intro h
    simp only [deleteAdjustment]
    omega
  · simp only [deleteAdjustment]
    omega
  · simp only [deleteAdjustment]
    omega

/-- Witness of C4: deleting an absent identifier twice from a total of 1 gives
0 and then 0 again. -/
theorem deleteAdjustment_total_witness :
    (deleteAdjustment sampleState (Id.num 9)).adjustmentTotal = 1 - 1 ∧
    (deleteAdjustment (deleteAdjustment sampleState (Id.num 9)) (Id.num 9)).adjustmentTotal = 0 :=
  ⟨(deleteAdjustment_total sampleState (Id.num 9)).2.1 (by decide),
    (deleteAdjustment_total (deleteAdjustment sampleState (Id.num 9)) (Id.num 9)).2.2.1
      (by decide)⟩

/-- Length of a list after the entities with key `id` are filtered out. -/
theorem length_filter_ne {α : Type} (key : α → Id) (id : Id) (xs : List α) :
    (xs.filter (fun a => decide (key a ≠ id))).length
      + xs.countP (fun a => decide (key a = id)) = xs.length := by
  induction xs with
  | nil => rfl
  | cons x rest ih =>
    simp only [decide_not] at ih ⊢
    by_cases hx : key x = id
    · simp [List.filter, List.countP_cons, hx]
      omega
    · simp [List.filter, List.countP_cons, hx]
      omega

/-- C5, as stated, fails: after the same one-element page was appended twice,
one `deleteAdjustment` of its identifier shortens the collection from 2 to 0. -/
theorem deleteAdjustment_length_counterexample :
    (addAdjustmentsEach initialState [[sampleAdjustment], [sampleAdjustment]]).adjustments.length
      = 2 ∧
    (deleteAdjustment
        (addAdjustmentsEach initialState [[sampleAdjustment], [sampleAdjustment]])
        (Id.num 7)).adjustments.length = 0 ∧
    ¬ ((deleteAdjustment
        (addAdjustmentsEach initialState [[sampleAdjustment], [sampleAdjustment]])
        (Id.num 7)).adjustments.length + 1
      ≥ (addAdjustmentsEach initialState
          [[sampleAdjustment], [sampleAdjustment]]).adjustments.length) := by
  decide

/-- C5 (amended): one call of `deleteAdjustment` (likewise `deleteProduct`)
shortens the collection by exactly the number of entities that carry the
identifier; hence by at most 1 whenever at most one entity carries it. -/
theorem deleteAdjustment_deleteProduct_length (s : State) (id : Id) :
    (deleteAdjustment s id).adjustments.length
      + s.adjustments.countP (fun a => decide (a.id = id)) = s.adjustments.length ∧
    (deleteProduct s id).products.length
      + s.products.countP (fun p => decide (p.id = id)) = s.products.length ∧
    (s.adjustments.countP (fun a => decide (a.id = id)) ≤ 1 →
      s.adjustments.length ≤ (deleteAdjustment s id).adjustments.length + 1) ∧
    (s.products.countP (fun p => decide (p.id = id)) ≤ 1 →
      s.products.length ≤ (deleteProduct s id).products.length + 1) := by
  have ha := length_filter_ne Adjustment.id id s.adjustments
  have hp := length_filter_ne Product.id id s.products
  simp only [deleteAdjustment, deleteProduct]
  refine ⟨ha, hp, ?_, ?_⟩
  · intro h
    omega
  · intro h
    omega

/-- Witness of C5 (amended): the sample state holds one adjustment with
identifier 7 and one product with identifier 1. -/
theorem deleteAdjustment_deleteProduct_length_witness :
    sampleState.adjustments.length
      ≤ (deleteAdjustment sampleState (Id.num 7)).adjustments.length + 1 ∧
    sampleState.products.length
      ≤ (deleteProduct sampleState (Id.num 1)).products.length + 1 :=
  ⟨(deleteAdjustment_deleteProduct_length sampleState (Id.num 7)).2.2.1 (by decide),
    (deleteAdjustment_deleteProduct_length sampleState (Id.num 1)).2.2.2 (by decide)⟩

/-! ## Opening a modal -/

/-- C6: from every state, each open operation yields a state in which exactly
one modal reports open, the requested one, with the given entity as its
selection and, for the adjustment modal, the given mode.  The operations are
total functions of the state: none of them fails on an open modal. -/
theorem open_exactly_one (s : State) (product : Option Product) (detail : Product)
    (adjustment : Option Adjustment) (mode : String) :
    ((openProductModal s product).isProductModalOpen = true ∧
      (openProductModal s product).isProductDetailOpen = false ∧
      (openProductModal s product).isAdjustmentModalOpen = false ∧
      openModalCount (openProductModal s product) = 1 ∧
      (openProductModal s product).selectedProduct = product) ∧
    ((openProductDetail s detail).isProductDetailOpen = true ∧
      (openProductDetail s detail).isProductModalOpen = false ∧
      (openProductDetail s detail).isAdjustmentModalOpen = false ∧
      openModalCount (openProductDetail s detail) = 1 ∧
      (openProductDetail s detail).selectedProduct = some detail) ∧
    ((openAdjustmentModal s adjustment mode).isAdjustmentModalOpen = true ∧
      (openAdjustmentModal s adjustment mode).isProductModalOpen = false ∧
      (openAdjustmentModal s adjustment mode).isProductDetailOpen = false ∧
      openModalCount (openAdjustmentModal s adjustment mode) = 1 ∧
      (openAdjustmentModal s adjustment mode).selectedAdjustment = adjustment ∧
      (openAdjustmentModal s adjustment mode).adjustmentModalMode = mode) := by
  refine ⟨⟨rfl, rfl, rfl, rfl, rfl⟩, ⟨rfl, rfl, rfl, rfl, rfl⟩, ⟨rfl, rfl, rfl, rfl, rfl, rfl⟩⟩

/-- C7, the code at the failing inputs: an open operation that closes another
modal leaves the selection of the closed modal in place.  With the adjustment
modal open on the sample adjustment, `openProductModal` and `openProductDetail`
keep `selectedAdjustment`; with the product modal or the detail modal open on
the sample product, `openAdjustmentModal` keeps `selectedProduct`. -/
theorem open_keeps_closed_selection :
    adjustmentEditState.isAdjustmentModalOpen = true ∧
    (openProductModal adjustmentEditState none).isAdjustmentModalOpen = false ∧
    (openProductModal adjustmentEditState none).selectedAdjustment = some sampleAdjustment ∧
    (openProductDetail adjustmentEditState otherProduct).isAdjustmentModalOpen = false ∧
    (openProductDetail adjustmentEditState otherProduct).selectedAdjustment
      = some sampleAdjustment ∧
    productEditState.isProductModalOpen = true ∧
    (openAdjustmentModal productEditState none "create").isProductModalOpen = false ∧
    (openAdjustmentModal productEditState none "create").selectedProduct = some sampleProduct ∧
    productDetailState.isProductDetailOpen = true ∧
    (openAdjustmentModal productDetailState none "create").isProductDetailOpen = false ∧
    (openAdjustmentModal productDetailState none "create").selectedProduct
      = some sampleProduct := by
  decide

/-! ## Hydration -/

/-- C8: for a persisted snapshot that carries `products` and `adjustments`,
`merge` takes both collections from the snapshot and sets both loading flags
and the three modal-open flags to `false`, the modal mode to `"create"` and
both selections to none, whatever the snapshot or the current state hold in
these properties. -/
theorem merge_collections_and_reset (persisted : PersistedState) (current : State)
    (products : List Product) (adjustments : List Adjustment)
    (hproducts : persisted.products = some products)
    (hadjustments : persisted.adjustments = some adjustments) :
    (merge persisted current).products = products ∧
    (merge persisted current).adjustments = adjustments ∧
    (merge persisted current).productLoading = false ∧
    (merge persisted current).adjustmentLoading = false ∧
    (merge persisted current).isProductModalOpen = false ∧
    (merge persisted current).isProductDetailOpen = false ∧
    (merge persisted current).isAdjustmentModalOpen = false ∧
    (merge persisted current).adjustmentModalMode = "create" ∧
    (merge persisted current).selectedProduct = none ∧
    (merge persisted current).selectedAdjustment = none := by
  refine ⟨?_, ?_, rfl, rfl, rfl, rfl, rfl, rfl, rfl, rfl⟩
  · simp [merge, hproducts]
  · simp [merge, hadjustments]

/-- Witness of C8: the snapshot `{ products: [p1, p2], adjustments: [] }` merged
into a current state with `isProductModalOpen = true`. -/
theorem merge_collections_and_reset_witness :
    stuckState.isProductModalOpen = true ∧
    (merge sampleSnapshot stuckState).products = [sampleProduct, otherProduct] ∧
    (merge sampleSnapshot stuckState).isProductModalOpen = false :=
  ⟨rfl,
    (merge_collections_and_reset sampleSnapshot stuckState [sampleProduct, otherProduct] []
      rfl rfl).1,
    (merge_collections_and_reset sampleSnapshot stuckState [sampleProduct, otherProduct] []
      rfl rfl).2.2.2.2.1⟩

/-! ## Adjustment statistics -/

/-- One round of the loop, property by property. -/
theorem statsStep_eq (parseDate : String → Option JsDate) (month : Nat) (year : Int)
    (st : AdjustmentStats) (a : Adjustment) :
    statsStep parseDate month year st a =
      { total := st.total
        stockIn := st.stockIn + (if 0 < a.qty then a.qty else 0)
        stockOut := st.stockOut + (if a.qty ≤ 0 then |a.qty| else 0)
        totalValue := st.totalValue + |a.amount.getD 0|
        thisMonth := st.thisMonth + (if createdInMonth parseDate month year a then 1 else 0) } := by
  unfold statsStep createdInMonth
  have hq2 : (a.qty ≤ 0) = ¬ (0 < a.qty) := by
    apply propext
    constructor <;> intro h <;> omega
  cases hcreated : a.created_at with
  | none =>
    by_cases hq : 0 < a.qty <;> simp [hq, hq2]
  | some created =>
    by_cases hc : created = ""
    · subst hc
      cases hparse : parseDate "" with
      | none => by_cases hq : 0 < a.qty <;> simp [hq, hq2, hparse]
      | some date => by_cases hq : 0 < a.qty <;> simp [hq, hq2, hparse]
    · cases hparse : parseDate created with
      | none => by_cases hq : 0 < a.qty <;> simp [hq, hq2, hc, hparse]
      | some date =>
        by_cases hq : 0 < a.qty <;> by_cases hm : date.month = month <;>
          by_cases hy : date.fullYear = year <;> simp [hq, hq2, hc, hm, hy, hparse]

/-- The loop from an arbitrary accumulator. -/
theorem foldl_statsStep (parseDate : String → Option JsDate) (month : Nat) (year : Int)
    (xs : List Adjustment) :
    ∀ st : AdjustmentStats, xs.foldl (statsStep parseDate month year) st =
      { total := st.total
        stockIn := st.stockIn
          + ((xs.filter (fun a => decide (0 < a.qty))).map (fun a => a.qty)).sum
        stockOut := st.stockOut
          + ((xs.filter (fun a => decide (a.qty ≤ 0))).map (fun a => |a.qty|)).sum
        totalValue := st.totalValue + (xs.map (fun a => |a.amount.getD 0|)).sum
        thisMonth := st.thisMonth + xs.countP (createdInMonth parseDate month year) } := by
  induction xs with
  | nil => intro st; simp
  | cons x rest ih =>
    intro st
    rw [List.foldl_cons, ih, statsStep_eq]
    by_cases hq : 0 < x.qty
    · have hq2 : ¬ x.qty ≤ 0 := by omega
      by_cases hm : createdInMonth parseDate month year x = true
      · simp [List.filter, List.countP_cons, hq, hq2, hm, add_assoc]
        omega
      · simp [List.filter, List.countP_cons, hq, hq2, hm, add_assoc]
    · have hq2 : x.qty ≤ 0 := by omega
      by_cases hm : createdInMonth parseDate month year x = true
      · simp [List.filter, List.countP_cons, hq, hq2, hm, add_assoc]
        omega
      · simp [List.filter, List.countP_cons, hq, hq2, hm, add_assoc]

/-- Meaning of `createdInMonth`: the entry has a non-empty `created_at` that
parses to a date of the given month and year. -/
theorem createdInMonth_iff (parseDate : String → Option JsDate) (month : Nat) (year : Int)
    (a : Adjustment) :
    createdInMonth parseDate month year a = true ↔
      ∃ created date, a.created_at = some created ∧ created ≠ "" ∧
        parseDate created = some date ∧ date.month = month ∧ date.fullYear = year := by
  unfold createdInMonth
  cases hcreated : a.created_at with
  | none => simp
  | some created =>
    cases hparse : parseDate created with
    | none => simp [hparse]
    | some date =>
      simp only [hparse, decide_eq_true_eq]
      constructor
      · intro h
        exact ⟨created, date, rfl, h.1, hparse, h.2.1, h.2.2⟩
      · rintro ⟨created2, date2, h1, h2, h3, h4, h5⟩
        have hc : created = created2 := Option.some.inj h1
        subst hc
        rw [hparse] at h3
        have hd : date = date2 := Option.some.inj h3
        subst hd
        exact ⟨h2, h4, h5⟩

/-- C9: for every adjustment collection and every clock reading (the source
reads the clock once for the month and once for the year), `getAdjustmentStats`
returns the count, the sum of the positive quantities, the sum of the absolute
values of the quantities that are not positive, the sum of the absolute amounts
with an absent amount counting as 0, and the number of entries whose
`created_at` lies in the month and year of the clock.  On a stock-in of 5 with
amount 50 from this month followed by a stock-out of 3 with amount 30 from
another month the result is `{ total: 2, stockIn: 5, stockOut: 3,
totalValue: 80, thisMonth: 1 }`. -/
theorem getAdjustmentStats_spec (parseDate : String → Option JsDate) (now₁ now₂ : JsDate)
    (s : State) :
    getAdjustmentStats parseDate now₁ now₂ s
      = adjustmentStatsSpec parseDate now₁.month now₂.fullYear s.adjustments ∧
    (∀ a : Adjustment, createdInMonth parseDate now₁.month now₂.fullYear a = true ↔
      ∃ created date, a.created_at = some created ∧ created ≠ "" ∧
        parseDate created = some date ∧ date.month = now₁.month ∧
        date.fullYear = now₂.fullYear) ∧
    (∀ a₁ a₂ : Adjustment, s.adjustments = [a₁, a₂] →
      a₁.qty = 5 → a₁.amount = some 50 →
      createdInMonth parseDate now₁.month now₂.fullYear a₁ = true →
      a₂.qty = -3 → a₂.amount = some 30 →
      createdInMonth parseDate now₁.month now₂.fullYear a₂ = false →
      getAdjustmentStats parseDate now₁ now₂ s
        = { total := 2, stockIn := 5, stockOut := 3, totalValue := 80, thisMonth := 1 }) := by
  have hspec : getAdjustmentStats parseDate now₁ now₂ s
      = adjustmentStatsSpec parseDate now₁.month now₂.fullYear s.adjustments := by
    simp only [getAdjustmentStats]
    rw [foldl_statsStep]
    simp [adjustmentStatsSpec]
  refine ⟨hspec, fun a => createdInMonth_iff parseDate now₁.month now₂.fullYear a, ?_⟩
  intro a₁ a₂ hxs hq₁ ha₁ hm₁ hq₂ ha₂ hm₂
  rw [hspec, hxs]
  simp [adjustmentStatsSpec, List.filter, List.countP_cons, hq₁, ha₁, hm₁, hq₂, ha₂, hm₂]
  norm_num

/-- Witness of C9: the two-entry example with a clock in May 2024. -/
theorem getAdjustmentStats_spec_witness :
    getAdjustmentStats sampleParseDate sampleNow sampleNow statsState
      = { total := 2, stockIn := 5, stockOut := 3, totalValue := 80, thisMonth := 1 } :=
  (getAdjustmentStats_spec sampleParseDate sampleNow sampleNow statsState).2.2
    stockInThisMonth stockOutLastMonth rfl rfl rfl (by decide) rfl rfl (by decide)

/-! ## Searching products -/

/-- The method `includes` decides the substring relation. -/
theorem includes_iff (str sub : String) :
    includes str sub = true ↔ sub.data <:+: str.data := by
  unfold includes
  rw [List.any_eq_true, List.infix_iff_prefix_suffix]
  constructor
  · rintro ⟨rest, hmem, hpre⟩
    exact ⟨rest, List.isPrefixOf_iff_prefix.mp hpre, (List.mem_tails rest str.data).mp hmem⟩
  · rintro ⟨rest, hpre, hsuf⟩
    exact ⟨rest, (List.mem_tails rest str.data).mpr hsuf, List.isPrefixOf_iff_prefix.mpr hpre⟩

/-- One disjunct of the filter: the field is present and contains the query. -/
theorem fieldIncludes_iff (toLowerCase : String → String) (field : Option String)
    (lowerQuery : String) :
    fieldIncludes toLowerCase field lowerQuery = true ↔
      ∃ text, field = some text ∧ lowerQuery.data <:+: (toLowerCase text).data := by
  cases field with
  | none => simp [fieldIncludes]
  | some text => simp [fieldIncludes, includes_iff]

/-- The filter of `searchProducts` holds exactly for the matching products. -/
theorem searchFilter_iff (toLowerCase : String → String) (query : String) (p : Product) :
    (fieldIncludes toLowerCase p.title (toLowerCase query) ||
      fieldIncludes toLowerCase p.sku (toLowerCase query) ||
      fieldIncludes toLowerCase p.description (toLowerCase query)) = true ↔
    MatchesQuery toLowerCase query p := by
  simp only [Bool.or_eq_true, fieldIncludes_iff, MatchesQuery]
  constructor
  · rintro ((⟨t, h1, h2⟩ | ⟨t, h1, h2⟩) | ⟨t, h1, h2⟩)
    · exact ⟨t, Or.inl h1, h2⟩
    · exact ⟨t, Or.inr (Or.inl h1), h2⟩
    · exact ⟨t, Or.inr (Or.inr h1), h2⟩
  · rintro ⟨t, h1 | h1 | h1, h2⟩
    · exact Or.inl (Or.inl ⟨t, h1, h2⟩)
    · exact Or.inl (Or.inr ⟨t, h1, h2⟩)
    · exact Or.inr ⟨t, h1, h2⟩

/-- A string of length 0 is the empty string. -/
theorem string_eq_empty_of_length (text : String) (h : text.length = 0) : text = "" := by
  cases text with
  | mk data =>
    have hdata : data = [] := List.length_eq_zero.mp h
    subst hdata
    rfl

/-- C10: an absent or empty query returns the collection itself, products
without title, SKU and description included; any other query returns the
collection filtered, in collection order, by a test that holds exactly for the
products whose lower-cased title, SKU or description contains the lower-cased
query; hence two queries of the same length with the same lower-casing, that is
two queries that differ only in letter case, return the same products. -/
theorem searchProducts_spec (toLowerCase : String → String) (s : State) :
    searchProducts toLowerCase s none = s.products ∧
    searchProducts toLowerCase s (some "") = s.products ∧
    (∀ q : String, q ≠ "" →
      ∃ keep : Product → Bool, (∀ p, keep p = true ↔ MatchesQuery toLowerCase q p) ∧
        searchProducts toLowerCase s (some q) = s.products.filter keep) ∧
    (∀ q q2 : String, q.length = q2.length → toLowerCase q = toLowerCase q2 →
      searchProducts toLowerCase s (some q) = searchProducts toLowerCase s (some q2)) := by
  refine ⟨rfl, rfl, ?_, ?_⟩
  · intro q hq
    refine ⟨fun p => fieldIncludes toLowerCase p.title (toLowerCase q) ||
      fieldIncludes toLowerCase p.sku (toLowerCase q) ||
      fieldIncludes toLowerCase p.description (toLowerCase q), ?_, ?_⟩
    · intro p
      exact searchFilter_iff toLowerCase q p
    · simp [searchProducts, hq]
  · intro q q2 hlen hlow
    by_cases hq : q = ""
    · have hq2 : q2 = "" := by
        apply string_eq_empty_of_length
        rw [← hlen, hq]
        rfl
      rw [hq, hq2]
    · have hq2 : q2 ≠ "" := by
        intro h
        apply hq
        apply string_eq_empty_of_length
        rw [hlen, h]
        rfl
      simp [searchProducts, hq, hq2, hlow]

/-- Witness of C10: with the lower-casing of A to Z, the queries `MUG` and
`mug` return the same products of a collection that holds a bare product, and
the non-empty query `plate` is a filter of the collection. -/
theorem searchProducts_spec_witness :
    searchProducts asciiLower searchState (some "MUG")
      = searchProducts asciiLower searchState (some "mug") ∧
    ∃ keep : Product → Bool, (∀ p, keep p = true ↔ MatchesQuery asciiLower "plate" p) ∧
      searchProducts asciiLower searchState (some "plate") = searchState.products.filter keep :=
  ⟨(searchProducts_spec asciiLower searchState).2.2.2 "MUG" "mug" (by decide) (by decide),
    (searchProducts_spec asciiLower searchState).2.2.1 "plate" (by decide)⟩

/-! ## The modal state machine -/

/-- One operation keeps the number of open modals at most 1. -/
theorem openModalCount_applyOp (s : State) (op : Op) (h : openModalCount s ≤ 1) :
    openModalCount (applyOp s op) ≤ 1 := by
  rcases op with o | o | o | _ | persisted
  · have heq : openModalCount (applyOp s (Op.product o)) = openModalCount s := by
      cases o <;> rfl
    rw [heq]
    exact h
  · have heq : openModalCount (applyOp s (Op.adjustment o)) = openModalCount s := by
      cases o <;> rfl
    rw [heq]
    exact h
  · cases hp : s.isProductModalOpen <;> cases hd : s.isProductDetailOpen <;>
      cases ha : s.isAdjustmentModalOpen <;>
      simp [openModalCount, hp, hd, ha] at h <;>
      cases o <;>
      simp [applyOp, applyModalOp, openModalCount, openProductModal, closeProductModal,
        openProductDetail, closeProductDetail, openAdjustmentModal, closeAdjustmentModal,
        setAdjustmentModalMode, closeAllModals, hp, hd, ha]
  · simp [applyOp, clearAllData, openModalCount]
  · simp [applyOp, merge, openModalCount]

/-- Every sequence of operations keeps the number of open modals at most 1. -/
theorem openModalCount_run (ops : List Op) :
    ∀ s : State, openModalCount s ≤ 1 → openModalCount (run s ops) ≤ 1 := by
  induction ops with
  | nil => intro s h; exact h
  | cons op rest ih =>
    intro s h
    exact ih (applyOp s op) (openModalCount_applyOp s op h)

/-- In a reachable state at most one modal is open. -/
theorem openModalCount_reachable (s : State) (h : Reachable s) : openModalCount s ≤ 1 := by
  obtain ⟨ops, hops⟩ := h
  rw [← hops]
  exact openModalCount_run ops initialState (by decide)

/-- A count of at most 1 means that no two flags are true together. -/
theorem not_two_open (s : State) (h : openModalCount s ≤ 1) :
    ¬ (s.isProductModalOpen = true ∧ s.isProductDetailOpen = true) ∧
    ¬ (s.isProductModalOpen = true ∧ s.isAdjustmentModalOpen = true) ∧
    ¬ (s.isProductDetailOpen = true ∧ s.isAdjustmentModalOpen = true) := by
  cases hp : s.isProductModalOpen <;> cases hd : s.isProductDetailOpen <;>
    cases ha : s.isAdjustmentModalOpen <;>
    simp [openModalCount, hp, hd, ha] at h ⊢

/-- C11: in every state reached from the initial state by a finite sequence of
store operations (collection operations, open, close, `closeAllModals`,
`setAdjustmentModalMode`, `clearAllData`, hydration), at most one of the three
modal-open flags is true. -/
theorem at_most_one_modal_open (ops : List Op) :
    openModalCount (run initialState ops) ≤ 1 ∧
    ¬ ((run initialState ops).isProductModalOpen = true ∧
        (run initialState ops).isProductDetailOpen = true) ∧
    ¬ ((run initialState ops).isProductModalOpen = true ∧
        (run initialState ops).isAdjustmentModalOpen = true) ∧
    ¬ ((run initialState ops).isProductDetailOpen = true ∧
        (run initialState ops).isAdjustmentModalOpen = true) := by
  have h := openModalCount_run ops initialState (by decide)
  exact ⟨h, not_two_open _ h⟩

/-- C12, as stated, fails: in the reachable state with the detail modal open,
`closeProductModal` leaves the detail modal open, and in the reachable state
with the product modal open, `closeProductDetail` and `closeAdjustmentModal`
leave the product modal open, so the machine is not in `Closed` afterwards. -/
theorem close_not_closed_counterexample :
    Reachable detailOpenState ∧
    (closeProductModal detailOpenState).isProductDetailOpen = true ∧
    isClosed (closeProductModal detailOpenState) = false ∧
    Reachable productOpenState ∧
    (closeProductDetail productOpenState).isProductModalOpen = true ∧
    isClosed (closeProductDetail productOpenState) = false ∧
    (closeAdjustmentModal productOpenState).isProductModalOpen = true ∧
    isClosed (closeAdjustmentModal productOpenState) = false :=
  ⟨⟨[Op.modal (ModalOp.openProductDetail sampleProduct)], rfl⟩, by decide, by decide,
    ⟨[Op.modal (ModalOp.openProductModal (some sampleProduct))], rfl⟩, by decide, by decide,
    by decide, by decide⟩

/-- C12 (amended): in every state a close operation sets the open flag of its
own modal to false, clears the selection associated with that modal and leaves
the other two open flags as they were; hence it returns the machine to `Closed`
from every state in which no other modal is open, in particular from every
reachable state in which its own modal is the open one. -/
theorem close_own_modal (s : State) :
    ((closeProductModal s).isProductModalOpen = false ∧
      (closeProductModal s).selectedProduct = none ∧
      (closeProductModal s).isProductDetailOpen = s.isProductDetailOpen ∧
      (closeProductModal s).isAdjustmentModalOpen = s.isAdjustmentModalOpen) ∧
    ((closeProductDetail s).isProductDetailOpen = false ∧
      (closeProductDetail s).selectedProduct = none ∧
      (closeProductDetail s).isProductModalOpen = s.isProductModalOpen ∧
      (closeProductDetail s).isAdjustmentModalOpen = s.isAdjustmentModalOpen) ∧
    ((closeAdjustmentModal s).isAdjustmentModalOpen = false ∧
      (closeAdjustmentModal s).selectedAdjustment = none ∧
      (closeAdjustmentModal s).isProductModalOpen = s.isProductModalOpen ∧
      (closeAdjustmentModal s).isProductDetailOpen = s.isProductDetailOpen) ∧
    (s.isProductDetailOpen = false → s.isAdjustmentModalOpen = false →
      isClosed (closeProductModal s) = true) ∧
    (s.isProductModalOpen = false → s.isAdjustmentModalOpen = false →
      isClosed (closeProductDetail s) = true) ∧
    (s.isProductModalOpen = false → s.isProductDetailOpen = false →
      isClosed (closeAdjustmentModal s) = true) ∧
    (Reachable s → s.isProductModalOpen = true →
      isClosed (closeProductModal s) = true ∧ (closeProductModal s).selectedProduct = none) ∧
    (Reachable s → s.isProductDetailOpen = true →
      isClosed (closeProductDetail s) = true ∧ (closeProductDetail s).selectedProduct = none) ∧
    (Reachable s → s.isAdjustmentModalOpen = true →
      isClosed (closeAdjustmentModal s) = true ∧
      (closeAdjustmentModal s).selectedAdjustment = none) := by
  refine ⟨⟨rfl, rfl, rfl, rfl⟩, ⟨rfl, rfl, rfl, rfl⟩, ⟨rfl, rfl, rfl, rfl⟩, ?_, ?_, ?_, ?_, ?_, ?_⟩
  · intro hd ha
    simp [isClosed, closeProductModal, hd, ha]
  · intro hp ha
    simp [isClosed, closeProductDetail, hp, ha]
  · intro hp hd
    simp [isClosed, closeAdjustmentModal, hp, hd]
  · intro hreach hp
    have h := not_two_open s (openModalCount_reachable s hreach)
    cases hd : s.isProductDetailOpen <;> cases ha : s.isAdjustmentModalOpen <;>
      simp [isClosed, closeProductModal, hp, hd, ha] at h ⊢
  · intro hreach hd
    have h := not_two_open s (openModalCount_reachable s hreach)
    cases hp : s.isProductModalOpen <;> cases ha : s.isAdjustmentModalOpen <;>
      simp [isClosed, closeProductDetail, hp, hd, ha] at h ⊢
  · intro hreach ha
    have h := not_two_open s (openModalCount_reachable s hreach)
    cases hp : s.isProductModalOpen <;> cases hd : s.isProductDetailOpen <;>
      simp [isClosed, closeAdjustmentModal, hp, hd, ha] at h ⊢

/-- Witness of C12 (amended): each close operation applied in the reachable
state in which its own modal is open. -/
theorem close_own_modal_witness :
    (isClosed (closeProductModal productOpenState) = true ∧
      (closeProductModal productOpenState).selectedProduct = none) ∧
    (isClosed (closeProductDetail detailOpenState) = true ∧
      (closeProductDetail detailOpenState).selectedProduct = none) ∧
    (isClosed (closeAdjustmentModal adjustmentOpenState) = true ∧
      (closeAdjustmentModal adjustmentOpenState).selectedAdjustment = none) ∧
    isClosed (closeProductModal initialState) = true :=
  ⟨(close_own_modal productOpenState).2.2.2.2.2.2.1
      ⟨[Op.modal (ModalOp.openProductModal (some sampleProduct))], rfl⟩ (by decide),
    (close_own_modal detailOpenState).2.2.2.2.2.2.2.1
      ⟨[Op.modal (ModalOp.openProductDetail sampleProduct)], rfl⟩ (by decide),
    (close_own_modal adjustmentOpenState).2.2.2.2.2.2.2.2
      ⟨[Op.modal (ModalOp.openAdjustmentModal (some sampleAdjustment) "view")], rfl⟩
      (by decide),
    (close_own_modal initialState).2.2.2.1 (by decide) (by decide)⟩

/-- C13: from every state `closeAllModals` yields `Closed`: the three open
flags are false, both selections are none and the mode is `"create"`; applying
it twice is the same as applying it once. -/
theorem closeAllModals_closed (s : State) :
    (closeAllModals s).isProductModalOpen = false ∧
    (closeAllModals s).isProductDetailOpen = false ∧
    (closeAllModals s).isAdjustmentModalOpen = false ∧
    isClosed (closeAllModals s) = true ∧
    (closeAllModals s).selectedProduct = none ∧
    (closeAllModals s).selectedAdjustment = none ∧
    (closeAllModals s).adjustmentModalMode = "create" ∧
    closeAllModals (closeAllModals s) = closeAllModals s :=
  ⟨rfl, rfl, rfl, rfl, rfl, rfl, rfl, rfl⟩

/-! ## The persisted snapshot -/

/-- C14: the snapshot computed by `partialize` defines exactly the two
properties `products` and `adjustments`, with the two collections of the state
as values, and no other property; hence two states with the same collections
give the same snapshot, whatever their loading flags, cursors, modal flags,
modal mode and selections. -/
theorem partialize_collections_only (s : State) :
    (partialize s).products = some s.products ∧
    (partialize s).adjustments = some s.adjustments ∧
    ((partialize s).productPage = none ∧ (partialize s).productHasMore = none ∧
      (partialize s).productLoading = none ∧ (partialize s).selectedProduct = none ∧
      (partialize s).adjustmentPage = none ∧ (partialize s).adjustmentTotal = none ∧
      (partialize s).adjustmentHasMore = none ∧ (partialize s).adjustmentLoading = none ∧
      (partialize s).selectedAdjustment = none ∧ (partialize s).isProductModalOpen = none ∧
      (partialize s).isProductDetailOpen = none ∧
      (partialize s).isAdjustmentModalOpen = none ∧
      (partialize s).adjustmentModalMode = none) ∧
    (∀ t : State, t.products = s.products → t.adjustments = s.adjustments →
      partialize t = partialize s) := by
  refine ⟨rfl, rfl, ⟨rfl, rfl, rfl, rfl, rfl, rfl, rfl, rfl, rfl, rfl, rfl, rfl, rfl⟩, ?_⟩
  intro t hp ha
  simp [partialize, hp, ha]

/-- Witness of C14: the stuck state and the initial state hold the same (empty)
collections and differ in loading flags, modal flag, mode and selections. -/
theorem partialize_collections_only_witness :
    stuckState ≠ initialState ∧ partialize stuckState = partialize initialState :=
  ⟨by decide, (partialize_collections_only initialState).2.2.2 stuckState rfl rfl⟩

/-! ## Looking up, inserting and removing -/

/-- The lookup finds nothing exactly when no element carries the identifier. -/
theorem find_eq_none_iff {α : Type} (key : α → Id) (id : Id) (xs : List α) :
    xs.find? (fun a => decide (key a = id)) = none ↔ ∀ a ∈ xs, key a ≠ id := by
  induction xs with
  | nil => simp
  | cons x rest ih =>
    by_cases hx : key x = id
    · simp [List.find?, hx]
    · simp [List.find?, hx, ih]

/-- The lookup returns `e` exactly when `e` carries the identifier and no
element before it does. -/
theorem find_eq_some_iff {α : Type} (key : α → Id) (id : Id) (xs : List α) (e : α) :
    xs.find? (fun a => decide (key a = id)) = some e ↔
      ∃ before after, xs = before ++ e :: after ∧ key e = id ∧ ∀ a ∈ before, key a ≠ id := by
  induction xs with
  | nil => simp
  | cons x rest ih =>
    by_cases hx : key x = id
    · simp only [List.find?, hx, decide_True]
      constructor
      · intro h
        have hxe : x = e := Option.some.inj h
        subst hxe
        exact ⟨[], rest, rfl, hx, by simp⟩
      · rintro ⟨before, after, hsplit, _, hbefore⟩
        cases before with
        | nil =>
          simp only [List.nil_append, List.cons.injEq] at hsplit
          rw [hsplit.1]
        | cons b bs =>
          simp only [List.cons_append, List.cons.injEq] at hsplit
          have hb : key b ≠ id := hbefore b (List.mem_cons_self b bs)
          rw [← hsplit.1] at hb
          exact absurd hx hb
    · simp only [List.find?, hx, decide_False]
      rw [ih]
      constructor
      · rintro ⟨before, after, hsplit, he, hbefore⟩
        refine ⟨x :: before, after, by simp [hsplit], he, ?_⟩
        intro a ha
        rcases List.mem_cons.mp ha with h | h
        · rw [h]
          exact hx
        · exact hbefore a h
      · rintro ⟨before, after, hsplit, he, hbefore⟩
        cases before with
        | nil =>
          simp only [List.nil_append, List.cons.injEq] at hsplit
          rw [hsplit.1] at hx
          exact absurd he hx
        | cons b bs =>
          simp only [List.cons_append, List.cons.injEq] at hsplit
          exact ⟨bs, after, hsplit.2, he,
            fun a ha => hbefore a (List.mem_cons_of_mem b ha)⟩

/-- C15: `getProductById` (respectively `getAdjustmentById`) returns none
exactly when no entity of the collection carries the identifier, and returns
`e` exactly when `e` carries it and no entity before `e` in the collection
does, that is the first one in collection order.  The query is a function of
the state that returns only the entity: it changes nothing. -/
theorem getById_first_match (s : State) (id : Id) :
    (getProductById s id = none ↔ ∀ p ∈ s.products, p.id ≠ id) ∧
    (∀ e : Product, getProductById s id = some e ↔
      ∃ before after, s.products = before ++ e :: after ∧ e.id = id ∧
        ∀ p ∈ before, p.id ≠ id) ∧
    (getAdjustmentById s id = none ↔ ∀ a ∈ s.adjustments, a.id ≠ id) ∧
    (∀ e : Adjustment, getAdjustmentById s id = some e ↔
      ∃ before after, s.adjustments = before ++ e :: after ∧ e.id = id ∧
        ∀ a ∈ before, a.id ≠ id) :=
  ⟨find_eq_none_iff Product.id id s.products,
    fun e => find_eq_some_iff Product.id id s.products e,
    find_eq_none_iff Adjustment.id id s.adjustments,
    fun e => find_eq_some_iff Adjustment.id id s.adjustments e⟩

/-- C16: after `addProduct(e)` (respectively `addAdjustment(e)`) the collection
is `e` followed by the old collection, its length has grown by exactly 1, and
the lookup of the identifier of `e` returns `e`, whatever the old collection
held under that identifier. -/
theorem addProduct_addAdjustment_front (s : State) (e : Product) (a : Adjustment) :
    (addProduct s e).products = e :: s.products ∧
    (addProduct s e).products.length = s.products.length + 1 ∧
    getProductById (addProduct s e) e.id = some e ∧
    (addAdjustment s a).adjustments = a :: s.adjustments ∧
    (addAdjustment s a).adjustments.length = s.adjustments.length + 1 ∧
    getAdjustmentById (addAdjustment s a) a.id = some a := by
  refine ⟨rfl, rfl, ?_, rfl, rfl, ?_⟩
  · simp [getProductById, addProduct, List.find?]
  · simp [getAdjustmentById, addAdjustment, List.find?]

/-- Insertion of a duplicate identifier: the sample state already holds a
product and an adjustment with the identifiers of the inserted entities, and
the lookup returns the inserted ones. -/
theorem addProduct_addAdjustment_front_duplicate :
    getProductById sampleState (Id.num 1) = some sampleProduct ∧
    getProductById (addProduct sampleState duplicateProduct) (Id.num 1)
      = some duplicateProduct ∧
    getAdjustmentById sampleState (Id.num 7) = some sampleAdjustment ∧
    getAdjustmentById (addAdjustment sampleState duplicateAdjustment) (Id.num 7)
      = some duplicateAdjustment := by
  decide

/-- What a filter on the identifier keeps. -/
theorem filter_ne_spec {α : Type} [DecidableEq α] (key : α → Id) (id : Id) (xs : List α) :
    (xs.filter (fun a => decide (key a ≠ id))).find? (fun a => decide (key a = id)) = none ∧
    (∀ a, a ∈ xs.filter (fun a => decide (key a ≠ id)) ↔ a ∈ xs ∧ key a ≠ id) ∧
    (xs.filter (fun a => decide (key a ≠ id))).Sublist xs ∧
    (∀ a, key a ≠ id → (xs.filter (fun a => decide (key a ≠ id))).count a = xs.count a) ∧
    (xs.filter (fun a => decide (key a ≠ id))).filter (fun a => decide (key a ≠ id))
      = xs.filter (fun a => decide (key a ≠ id)) := by
  refine ⟨?_, ?_, List.filter_sublist xs, ?_, ?_⟩
  · rw [find_eq_none_iff]
    intro a ha
    have h := (List.mem_filter.mp ha).2
    simpa using h
  · intro a
    simp [List.mem_filter]
  · intro a ha
    rw [List.count_filter]
    simpa using ha
  · simp [List.filter_filter]

/-- C17: after `deleteProduct(id)` (respectively `deleteAdjustment(id)`) the
lookup of `id` returns none; the collection holds exactly the old entities with
another identifier, each as often as before and in the old relative order; and
a second removal of the same identifier leaves the collection as it is. -/
theorem delete_removes_all (s : State) (id : Id) :
    (getProductById (deleteProduct s id) id = none ∧
      (∀ p, p ∈ (deleteProduct s id).products ↔ p ∈ s.products ∧ p.id ≠ id) ∧
      (deleteProduct s id).products.Sublist s.products ∧
      (∀ p : Product, p.id ≠ id → (deleteProduct s id).products.count p = s.products.count p) ∧
      (deleteProduct (deleteProduct s id) id).products = (deleteProduct s id).products) ∧
    (getAdjustmentById (deleteAdjustment s id) id = none ∧
      (∀ a, a ∈ (deleteAdjustment s id).adjustments ↔ a ∈ s.adjustments ∧ a.id ≠ id) ∧
      (deleteAdjustment s id).adjustments.Sublist s.adjustments ∧
      (∀ a : Adjustment, a.id ≠ id →
        (deleteAdjustment s id).adjustments.count a = s.adjustments.count a) ∧
      (deleteAdjustment (deleteAdjustment s id) id).adjustments
        = (deleteAdjustment s id).adjustments) :=
  ⟨filter_ne_spec Product.id id s.products, filter_ne_spec Adjustment.id id s.adjustments⟩

/-- Witness of C17: removing identifier 1 from the sample state keeps the other
product as often as before. -/
theorem delete_removes_all_witness :
    (deleteProduct sampleState (Id.num 1)).products.count otherProduct
      = sampleState.products.count otherProduct ∧
    (deleteAdjustment sampleState (Id.num 9)).adjustments.count sampleAdjustment
      = sampleState.adjustments.count sampleAdjustment :=
  ⟨(delete_removes_all sampleState (Id.num 1)).1.2.2.2.1 otherProduct (by decide),
    (delete_removes_all sampleState (Id.num 9)).2.2.2.2.1 sampleAdjustment (by decide)⟩

/-! ## Resetting a collection -/

/-- C18: whatever the loading flag, `resetProducts` yields an empty collection,
page 1 and has-more `true`, and `resetAdjustments` yields an empty collection,
page 1, total 0 and has-more `true`, which are the initial values; a state and
the same state with another loading flag give the same result. -/
theorem reset_initial_cursor (s : State) (loading : Bool) :
    ((resetProducts s).products = [] ∧ (resetProducts s).productPage = 1 ∧
      (resetProducts s).productHasMore = true) ∧
    productPart (resetProducts s) = productPart initialState ∧
    resetProducts { s with productLoading := loading } = resetProducts s ∧
    ((resetAdjustments s).adjustments = [] ∧ (resetAdjustments s).adjustmentPage = 1 ∧
      (resetAdjustments s).adjustmentTotal = 0 ∧
      (resetAdjustments s).adjustmentHasMore = true) ∧
    adjustmentPart (resetAdjustments s) = adjustmentPart initialState ∧
    resetAdjustments { s with adjustmentLoading := loading } = resetAdjustments s :=
  ⟨⟨rfl, rfl, rfl⟩, rfl, rfl, ⟨rfl, rfl, rfl, rfl⟩, rfl, rfl⟩

/-! ## Independence of the sections -/

/-- C19: every product operation leaves the adjustments, their page, total,
has-more flag and loading flag unchanged; every adjustment operation leaves the
products, their page, has-more flag and loading flag unchanged; and a product
operation and an adjustment operation give the same state in either order. -/
theorem product_adjustment_independent (s : State) (p : ProductOp) (a : AdjustmentOp) :
    adjustmentPart (applyProductOp s p) = adjustmentPart s ∧
    productPart (applyAdjustmentOp s a) = productPart s ∧
    applyAdjustmentOp (applyProductOp s p) a = applyProductOp (applyAdjustmentOp s a) p := by
  refine ⟨?_, ?_, ?_⟩
  · cases p <;> rfl
  · cases a <;> rfl
  · cases p <;> cases a <;> rfl

/-- C20: every modal operation leaves both collections, their cursors and their
loading flags unchanged, and every operation of the products and adjustments
sections leaves the three modal-open flags, the modal mode and both selections
unchanged. -/
theorem modal_collection_independent (s : State) (m : ModalOp) (p : ProductOp)
    (a : AdjustmentOp) :
    productPart (applyModalOp s m) = productPart s ∧
    adjustmentPart (applyModalOp s m) = adjustmentPart s ∧
    modalPart (applyProductOp s p) = modalPart s ∧
    modalPart (applyAdjustmentOp s a) = modalPart s := by
  refine ⟨?_, ?_, ?_, ?_⟩
  · cases m <;> rfl
  · cases m <;> rfl
  · cases p <;> rfl
  · cases a <;> rfl

/-! ## Patch followed by removal, insertion followed by removal -/

/-- Removal after a patch that keeps the identifier is removal alone. -/
theorem filter_map_patch {α : Type} (key : α → Id) (f : α → α) (id : Id)
    (hf : ∀ a, key a = id → key (f a) = id) (xs : List α) :
    (xs.map (fun a => if key a = id then f a else a)).filter (fun a => decide (key a ≠ id))
      = xs.filter (fun a => decide (key a ≠ id)) := by
  induction xs with
  | nil => rfl
  | cons x rest ih =>
    by_cases hx : key x = id
    · simp only [List.map_cons, hx, if_true, List.filter_cons, hf x hx, ne_eq, not_true_eq_false,
        decide_False]
      simpa using ih
    · simp only [List.map_cons, hx, if_false, List.filter_cons, ne_eq, not_false_eq_true,
        decide_True, if_true]
      rw [List.cons.injEq]
      exact ⟨rfl, by simpa using ih⟩

/-- Filtering out an identifier that no element carries keeps the list. -/
theorem filter_ne_absent {α : Type} (key : α → Id) (id : Id) (xs : List α)
    (habsent : ∀ a ∈ xs, key a ≠ id) :
    xs.filter (fun a => decide (key a ≠ id)) = xs := by
  rw [List.filter_eq_self]
  intro a ha
  simpa using habsent a ha

/-- C21, as stated, fails: the patch `{ id: 3 }` for identifier 1 followed by
the removal of identifier 1 keeps the patched product, now under identifier 3,
while the removal alone leaves only the other product. -/
theorem update_then_delete_counterexample :
    (deleteProduct
        (updateProduct sampleState (Id.num 1) { emptyProductPatch with id := some (Id.num 3) })
        (Id.num 1)).products
      = [{ sampleProduct with id := Id.num 3 }, otherProduct] ∧
    (deleteProduct sampleState (Id.num 1)).products = [otherProduct] ∧
    (deleteProduct
        (updateProduct sampleState (Id.num 1) { emptyProductPatch with id := some (Id.num 3) })
        (Id.num 1)).products
      ≠ (deleteProduct sampleState (Id.num 1)).products := by
  decide

/-- C21 (amended): for a patch that does not define the identifier or defines
it as the same identifier, `updateProduct(id, p)` followed by
`deleteProduct(id)` gives the state that `deleteProduct(id)` alone gives, and
the lookup of `id` finds nothing afterwards; the same holds for
`updateAdjustment` and `deleteAdjustment`. -/
theorem update_then_delete (s : State) (id : Id) :
    (∀ u : ProductPatch, (u.id = none ∨ u.id = some id) →
      deleteProduct (updateProduct s id u) id = deleteProduct s id ∧
      getProductById (deleteProduct (updateProduct s id u) id) id = none) ∧
    (∀ u : AdjustmentPatch, (u.id = none ∨ u.id = some id) →
      deleteAdjustment (updateAdjustment s id u) id = deleteAdjustment s id ∧
      getAdjustmentById (deleteAdjustment (updateAdjustment s id u) id) id = none) := by
  constructor
  · intro u hu
    have h : deleteProduct (updateProduct s id u) id = deleteProduct s id := by
      simp only [deleteProduct, updateProduct]
      rw [filter_map_patch Product.id (fun x => x.spread u) id
        (fun x hx => productSpread_id_eq x u id hu hx) s.products]
    rw [h]
    exact ⟨rfl, (filter_ne_spec Product.id id s.products).1⟩
  · intro u hu
    have h : deleteAdjustment (updateAdjustment s id u) id = deleteAdjustment s id := by
      simp only [deleteAdjustment, updateAdjustment]
      rw [filter_map_patch Adjustment.id (fun x => x.spread u) id
        (fun x hx => adjustmentSpread_id_eq x u id hu hx) s.adjustments]
    rw [h]
    exact ⟨rfl, (filter_ne_spec Adjustment.id id s.adjustments).1⟩

/-- Witness of C21 (amended): a stock patch and a quantity patch followed by
the removal of the patched identifier. -/
theorem update_then_delete_witness :
    deleteProduct (updateProduct sampleState (Id.num 1) { emptyProductPatch with stock := some 0 })
        (Id.num 1)
      = deleteProduct sampleState (Id.num 1) ∧
    deleteAdjustment
        (updateAdjustment sampleState (Id.num 7)
          { emptyAdjustmentPatch with id := some (Id.num 7), qty := some 1 })
        (Id.num 7)
      = deleteAdjustment sampleState (Id.num 7) :=
  ⟨((update_then_delete sampleState (Id.num 1)).1 { emptyProductPatch with stock := some 0 }
      (Or.inl rfl)).1,
    ((update_then_delete sampleState (Id.num 7)).2
      { emptyAdjustmentPatch with id := some (Id.num 7), qty := some 1 } (Or.inr rfl)).1⟩

/-- C30: from a state with a total of at least 0, inserting an adjustment whose
identifier occurs nowhere in the collection and then removing that identifier
gives back the state: the collection and the total have their previous values,
the insertion having raised the total by exactly 1 and the removal having
lowered it by exactly 1. -/
theorem add_then_delete_roundtrip (s : State) (a : Adjustment)
    (htotal : 0 ≤ s.adjustmentTotal) (hfresh : ∀ x ∈ s.adjustments, x.id ≠ a.id) :
    (deleteAdjustment (addAdjustment s a) a.id).adjustments = s.adjustments ∧
    (deleteAdjustment (addAdjustment s a) a.id).adjustmentTotal = s.adjustmentTotal ∧
    deleteAdjustment (addAdjustment s a) a.id = s ∧
    (addAdjustment s a).adjustmentTotal = s.adjustmentTotal + 1 ∧
    (deleteAdjustment (addAdjustment s a) a.id).adjustmentTotal
      = (addAdjustment s a).adjustmentTotal - 1 := by
  have hlist : (deleteAdjustment (addAdjustment s a) a.id).adjustments = s.adjustments := by
    simp only [deleteAdjustment, addAdjustment, List.filter_cons, ne_eq, not_true_eq_false,
      decide_False]
    simpa using filter_ne_absent Adjustment.id a.id s.adjustments hfresh
  have htot : (deleteAdjustment (addAdjustment s a) a.id).adjustmentTotal
      = s.adjustmentTotal := by
    simp only [deleteAdjustment, addAdjustment]
    omega
  refine ⟨hlist, htot, ?_, rfl, ?_⟩
  · cases s
    simp only [deleteAdjustment, addAdjustment] at hlist htot ⊢
    simp only [State.mk.injEq, true_and, and_true]
    exact ⟨hlist, htot⟩
  · rw [htot]
    simp only [addAdjustment]
    omega

/-- Witness of C30: the second sample adjustment, with identifier 8, inserted
into the sample state and removed again. -/
theorem add_then_delete_roundtrip_witness :
    deleteAdjustment (addAdjustment sampleState stockOutLastMonth) (Id.num 8) = sampleState :=
  (add_then_delete_roundtrip sampleState stockOutLastMonth (by decide) (by decide)).2.2.1

/-! ## The adjustment table -/

/-- Every slot of the pagination holds the page `windowStart + i`. -/
theorem pageButton_eq (totalPages adjustmentPage : Int) (i : Nat)
    (htotal : 1 ≤ totalPages) (hi : i < (min 5 totalPages).toNat) :
    pageButton totalPages adjustmentPage i
      = some (windowStart totalPages adjustmentPage + (i : Int)) := by
  unfold pageButton windowStart
  by_cases h5 : totalPages ≤ 5
  · have hrange : ¬ ((i : Int) + 1 < 1 ∨ (i : Int) + 1 > totalPages) := by omega
    simp only [h5, if_true, true_or, hrange, if_false]
    rw [add_comm]
  · by_cases h3 : adjustmentPage ≤ 3
    · have hrange : ¬ ((i : Int) + 1 < 1 ∨ (i : Int) + 1 > totalPages) := by omega
      simp only [h5, h3, if_true, if_false, or_true, hrange]
      rw [add_comm]
    · by_cases hend : adjustmentPage ≥ totalPages - 2
      · have hrange : ¬ (totalPages - 4 + (i : Int) < 1 ∨
            totalPages - 4 + (i : Int) > totalPages) := by omega
        simp only [h5, h3, hend, if_true, if_false, or_self, hrange]
      · have hrange : ¬ (adjustmentPage - 2 + (i : Int) < 1 ∨
            adjustmentPage - 2 + (i : Int) > totalPages) := by omega
        simp only [h5, h3, hend, if_false, or_self, hrange]

/-- The value `totalPages` in integer arithmetic: the quotient of
`adjustmentTotal + 9` by 10, rounded down. -/
theorem totalPages_eq (adjustmentTotal : Int) :
    totalPages adjustmentTotal = (adjustmentTotal + 9) / 10 := by
  unfold totalPages itemsPerPage
  rw [Int.ceil_eq_iff]
  have h1 : 10 * ((adjustmentTotal + 9) / 10) ≤ adjustmentTotal + 9 := by omega
  have h2 : adjustmentTotal ≤ 10 * ((adjustmentTotal + 9) / 10) := by omega
  have h1q : (10 : Rat) * (((adjustmentTotal + 9) / 10 : Int) : Rat)
      ≤ (adjustmentTotal : Rat) + 9 := by exact_mod_cast h1
  have h2q : (adjustmentTotal : Rat)
      ≤ (10 : Rat) * (((adjustmentTotal + 9) / 10 : Int) : Rat) := by exact_mod_cast h2
  constructor
  · rw [lt_div_iff₀ (by norm_num)]
    push_cast
    linarith
  · rw [div_le_iff₀ (by norm_num)]
    push_cast
    linarith

/-- C29, as stated, fails: with a total of 1 there is one page, the current
page 1 lies within `1..totalPages`, the table shows its row, and no button is
computed, where the claim expects `min(5, 1) = 1` button that holds the current
page.  With 12 pages there is no button either while the table is loading or
holds no adjustment. -/
theorem pageButtons_counterexample :
    sampleState.adjustmentLoading = false ∧ sampleState.adjustments ≠ [] ∧
    totalPages sampleState.adjustmentTotal = 1 ∧ sampleState.adjustmentPage = 1 ∧
    pageButtons sampleState = [] ∧
    (pageButtons sampleState).length
      ≠ (min 5 (totalPages sampleState.adjustmentTotal)).toNat ∧
    some sampleState.adjustmentPage ∉ pageButtons sampleState ∧
    totalPages twelvePagesState.adjustmentTotal = 12 ∧
    pageButtons { twelvePagesState with adjustmentLoading := true } = [] ∧
    pageButtons { twelvePagesState with adjustments := [] } = [] := by
  decide!

/-- C29 (amended): when the table is not loading and holds at least one
adjustment, for `totalPages >= 2` and a current page within `1..totalPages`,
the page-number buttons are the `min(5, totalPages)` consecutive pages that
start at 1 near the start, at `totalPages - 4` near the end and at
`adjustmentPage - 2` otherwise; they are distinct, all lie within
`1..totalPages`, and the current page is one of them. -/
theorem pageButtons_window (s : State) (hloading : s.adjustmentLoading = false)
    (hrows : s.adjustments ≠ []) (htotal : 2 ≤ totalPages s.adjustmentTotal)
    (hlow : 1 ≤ s.adjustmentPage) (hhigh : s.adjustmentPage ≤ totalPages s.adjustmentTotal) :
    pageButtons s
      = (List.range (min 5 (totalPages s.adjustmentTotal)).toNat).map
          (fun (i : Nat) =>
            some (windowStart (totalPages s.adjustmentTotal) s.adjustmentPage + (i : Int))) ∧
    (pageButtons s).length = (min 5 (totalPages s.adjustmentTotal)).toNat ∧
    (pageButtons s).Nodup ∧
    (∀ b ∈ pageButtons s,
      ∃ page : Int, b = some page ∧ 1 ≤ page ∧ page ≤ totalPages s.adjustmentTotal) ∧
    some s.adjustmentPage ∈ pageButtons s := by
  have hlen : s.adjustments.length > 0 := List.length_pos.mpr hrows
  have hguard : pageButtons s = pageSlots (totalPages s.adjustmentTotal) s.adjustmentPage := by
    have hgt : totalPages s.adjustmentTotal > 1 := by omega
    simp [pageButtons, hloading, hlen, hgt]
  generalize totalPages s.adjustmentTotal = pages at htotal hhigh hguard ⊢
  generalize s.adjustmentPage = current at hlow hhigh hguard ⊢
  have hstart : 1 ≤ windowStart pages current ∧
      windowStart pages current + min 5 pages - 1 ≤ pages ∧
      windowStart pages current ≤ current ∧
      current ≤ windowStart pages current + min 5 pages - 1 := by
    unfold windowStart
    split_ifs <;> omega
  have heq : pageButtons s
      = (List.range (min 5 pages).toNat).map
          (fun (i : Nat) => some (windowStart pages current + (i : Int))) := by
    rw [hguard]
    unfold pageSlots
    apply List.map_congr_left
    intro i hi
    exact pageButton_eq pages current i (by omega) (List.mem_range.mp hi)
  refine ⟨heq, ?_, ?_, ?_, ?_⟩
  · rw [heq]
    simp
  · rw [heq]
    apply List.Nodup.map _ (List.nodup_range _)
    intro i j hij
    have h := Option.some.inj hij
    omega
  · rw [heq]
    intro b hb
    obtain ⟨i, hi, hbi⟩ := List.mem_map.mp hb
    have hlt := List.mem_range.mp hi
    refine ⟨windowStart pages current + (i : Int), hbi.symm, ?_, ?_⟩ <;> omega
  · rw [heq]
    apply List.mem_map.mpr
    refine ⟨(current - windowStart pages current).toNat, ?_, ?_⟩
    · apply List.mem_range.mpr
      omega
    · congr 1
      omega

/-- Witness of C29 (amended): with a total of 115, page 7 of 12 shows the pages
5 to 9. -/
theorem pageButtons_window_witness :
    totalPages twelvePagesState.adjustmentTotal = 12 ∧
    pageButtons twelvePagesState = [some 5, some 6, some 7, some 8, some 9] :=
  ⟨by decide!,
    (pageButtons_window twelvePagesState rfl (by decide) (by decide!) (by decide)
      (by decide!)).1.trans (by decide!)⟩

/-- C27, the code at the failing input: for the stock-out of 3 with the amount
30, which is `|qty| × price` and positive, `getAdjustmentType` answers
"Stock In", while the view mode of the modal answers "Stock Out" and
`getAdjustmentStats` counts the entry as stock-out. -/
theorem getAdjustmentType_stock_out_shown_in :
    stockOutLastMonth.qty = -3 ∧ stockOutLastMonth.amount = some 30 ∧
    (getAdjustmentType stockOutLastMonth.qty stockOutLastMonth.amount).type = "Stock In" ∧
    (viewTypeInfo stockOutLastMonth).type = "Stock Out" ∧
    (getAdjustmentStats sampleParseDate sampleNow sampleNow stockOutState).stockOut = 3 ∧
    (getAdjustmentStats sampleParseDate sampleNow sampleNow stockOutState).stockIn = 0 := by
  decide

/-! ## Failed fetches -/

/-- C22, as stated, fails: with the loading flags false, a raising call makes
`loadAdjustments` empty the collection and set the total to 0, and makes
`loadAllProducts` empty the products, also when only the call for the second
page raises. -/
theorem failed_fetch_counterexample :
    sampleState.adjustmentLoading = false ∧ sampleState.productLoading = false ∧
    sampleState.adjustments = [sampleAdjustment] ∧ sampleState.adjustmentTotal = 1 ∧
    (AdjustmentTable.loadAdjustments sampleState 2
      (HttpOutcome.threw "Failed to fetch")).adjustments = [] ∧
    (AdjustmentTable.loadAdjustments sampleState 2
      (HttpOutcome.threw "Failed to fetch")).adjustmentTotal = 0 ∧
    sampleState.products = [sampleProduct, otherProduct] ∧
    (loadAllProducts sampleState failingFetch).1.products = [] ∧
    (loadAllProducts sampleState secondPageFails).1.products = [] := by
  decide

/-- C22 (amended): from a state with the loading flag false and a call that
raises, `loadProducts` returns the state unchanged; `loadAdjustments` replaces
the adjustments by the empty collection and the total by 0 and changes nothing
else; `loadAllProducts`, when one of its calls raises, replaces the products by
the empty collection, changes nothing else and returns the empty list.  In
each case the page, the has-more flag and the loading flag are as before. -/
theorem failed_fetch_effect (s : State) (page : Int) (reset : Bool) (message : String)
    (fetchProducts : Nat → HttpOutcome ProductsPage) :
    (s.productLoading = false →
      ProductList.loadProducts s page reset (HttpOutcome.threw message) = s) ∧
    (s.adjustmentLoading = false →
      AdjustmentTable.loadAdjustments s page (HttpOutcome.threw message)
        = { s with adjustments := [], adjustmentTotal := 0 }) ∧
    (s.productLoading = false → loadAllPages fetchProducts 10 1 [] = none →
      loadAllProducts s fetchProducts = ({ s with products := [] }, [])) := by
  refine ⟨?_, ?_, ?_⟩
  · intro h
    cases s
    simp only at h
    simp [ProductList.loadProducts, setProductLoading, h]
  · intro h
    cases s
    simp only at h
    simp [AdjustmentTable.loadAdjustments, setAdjustmentLoading, setAdjustments,
      setAdjustmentTotal, ArrayArg.orEmpty, h]
  · intro h hraise
    cases s
    simp only at h
    simp [loadAllProducts, hraise, setProductLoading, setProducts, ArrayArg.orEmpty, h]

/-- Witness of C22 (amended): the three loaders in the sample state, whose
loading flags are false, with a call that raises. -/
theorem failed_fetch_effect_witness :
    ProductList.loadProducts sampleState 2 false (HttpOutcome.threw "Failed to fetch")
      = sampleState ∧
    AdjustmentTable.loadAdjustments sampleState 2 (HttpOutcome.threw "Failed to fetch")
      = { sampleState with adjustments := [], adjustmentTotal := 0 } ∧
    loadAllProducts sampleState secondPageFails = ({ sampleState with products := [] }, []) :=
  ⟨(failed_fetch_effect sampleState 2 false "Failed to fetch" secondPageFails).1 rfl,
    (failed_fetch_effect sampleState 2 false "Failed to fetch" secondPageFails).2.1 rfl,
    (failed_fetch_effect sampleState 2 false "Failed to fetch" secondPageFails).2.2 rfl
      (by decide)⟩

/-! ## Submitting the forms -/

/-- The adjustment modal leaves the store alone, its modal open, when the call
returns a body with `success: false`. -/
theorem adjustment_submit_unsuccessful (s : State) (selectionProps : OwnProps)
    (formData : AdjustmentForm)
    (products : List Product) (response : ApiResponse CreatedData) (now : Int)
    (nowIso : String) (hfail : response.success = false) :
    AdjustmentModal.handleSubmit s selectionProps formData products
      (HttpOutcome.returned (some response)) now nowIso = some s := by
  unfold AdjustmentModal.handleSubmit
  cases hsel : s.selectedAdjustment <;> simp [hfail]

/-- C23, the code at the failing input: in edit mode on the sample product, with
a valid form and a call that returns `success: false` without raising, the
handler of the product modal writes the form into the store (the title of
product 1 changes) and closes the modal, whereas the handler of the adjustment
modal, given `success: false`, returns the state it was called in. -/
theorem product_submit_ignores_success :
    rejectedUpdate.success = false ∧
    productEditState.isProductModalOpen = true ∧
    (getProductById productEditState (Id.num 1)).map (fun p => p.title)
      = some (some "Blue Mug") ∧
    (ProductModal.handleSubmit anyUrl asciiUpper productEditState editForm
        (HttpOutcome.returned (some rejectedUpdate)) (HttpOutcome.threw "unused") 0).map
      (fun st => (getProductById st (Id.num 1)).map (fun p => p.title))
      = some (some (some "Blue Mug XL")) ∧
    (ProductModal.handleSubmit anyUrl asciiUpper productEditState editForm
        (HttpOutcome.returned (some rejectedUpdate)) (HttpOutcome.threw "unused") 0).map
      (fun st => st.isProductModalOpen) = some false ∧
    AdjustmentModal.handleSubmit adjustmentEditState absentProps editQtyForm []
        (HttpOutcome.returned (some rejectedAdjustment)) 0 "2024-05-11T09:00:00.000Z"
      = some adjustmentEditState := by
  decide

/-- What the validation of the adjustment form does establish: the quantity
string is not empty, converts to a number, and does not parse to 0. -/
theorem adjustment_validateForm_accepts (mode : String) (formData : AdjustmentForm)
    (h : AdjustmentModal.validateForm mode formData = true) :
    formData.qty ≠ "" ∧ isNaN formData.qty = false ∧ parseInt formData.qty ≠ some 0 := by
  unfold AdjustmentModal.validateForm at h
  simp only [Bool.not_eq_true', Bool.or_eq_false_iff, Bool.and_eq_false_iff,
    decide_eq_false_iff_not, decide_eq_true_eq, Bool.or_eq_true] at h
  obtain ⟨⟨_, hq⟩, hinv⟩ := h
  refine ⟨hq, ?_, ?_⟩
  · rcases hinv with h1 | h2
    · exact absurd hq (by simpa using h1)
    · exact h2.1
  · rcases hinv with h1 | h2
    · exact absurd hq (by simpa using h1)
    · exact h2.2

/-- C24, the code at the failing inputs: the quantity `.5` converts to a number
(`isNaN` is false) and does not parse to 0, so `validateForm` accepts it in
create and in edit mode, yet `parseInt` of it is `NaN`; the same holds for a
quantity of one space.  The handler then sends and writes a quantity that is no
integer: within the entity model it has no result. -/
theorem adjustment_validateForm_accepts_nan :
    isNaN ".5" = false ∧ parseInt ".5" = none ∧
    AdjustmentModal.validateForm "create" halfQtyForm = true ∧
    AdjustmentModal.validateForm "edit" { product_id := none, qty := ".5" } = true ∧
    isNaN " " = false ∧ parseInt " " = none ∧
    AdjustmentModal.validateForm "edit" { product_id := none, qty := " " } = true ∧
    AdjustmentModal.handleSubmit adjustmentCreateState absentProps halfQtyForm [sampleProduct]
        (HttpOutcome.returned (some acceptedAdjustment)) 0 "2024-05-11T09:00:00.000Z"
      = none := by
  decide

/-- A property that the spread skips or copies without a value leaves an entity
that has no value there as it is. -/
theorem ownValue_getD {α : Type} (held : Bool) (value : Option α) :
    (ownValue held value).getD value = value := by
  cases value <;> cases held <;> rfl

/-- Spreading the edited copy of an adjustment over that adjustment gives the
edited copy, whichever of its properties without a value the object has. -/
theorem spread_toPatch_self (selected : Adjustment) (qty : Int) (own : OwnProps) :
    selected.spread ((AdjustmentModal.updatedAdjustment selected qty).toPatch own)
      = AdjustmentModal.updatedAdjustment selected qty := by
  cases selected
  simp only [Adjustment.spread, Adjustment.toPatch, AdjustmentModal.updatedAdjustment,
    ownValue_getD, Option.getD_some]
  rfl

/-- Spreading the edited copy of a selection that carries a price over any
entity gives an entity whose amount is derived from the price it carries. -/
theorem spread_updated_amountDerived (x selected : Adjustment) (qty : Int) (own : OwnProps)
    (hprice : ∃ price, selected.price = some price) :
    amountDerived (x.spread ((AdjustmentModal.updatedAdjustment selected qty).toPatch own)) := by
  obtain ⟨price, hp⟩ := hprice
  refine ⟨price, ?_, ?_⟩
  · simp [Adjustment.spread, Adjustment.toPatch, AdjustmentModal.updatedAdjustment, ownValue, hp]
  · simp [Adjustment.spread, Adjustment.toPatch, AdjustmentModal.updatedAdjustment, ownValue, hp]

/-- The adjustments after the handler of the adjustment modal: unchanged, or
patched with the spread of `updatedAdjustment` under the selected identifier,
or extended at the front by `adjustmentForStore`. -/
theorem adjustment_submit_adjustments (s : State) (own : OwnProps)
    (formData : AdjustmentForm) (products : List Product)
    (outcome : HttpOutcome (ApiResponse CreatedData)) (now : Int) (nowIso : String)
    (s2 : State)
    (h : AdjustmentModal.handleSubmit s own formData products outcome now nowIso = some s2) :
    s2.adjustments = s.adjustments ∨
    (∃ selected qty, s.adjustmentModalMode = "edit" ∧ s.selectedAdjustment = some selected ∧
      parseInt formData.qty = some qty ∧
      s2.adjustments = s.adjustments.map (fun a =>
        if a.id = selected.id then
          a.spread ((AdjustmentModal.updatedAdjustment selected qty).toPatch own)
        else a)) ∨
    (∃ selectedProduct responseId qty, parseInt formData.qty = some qty ∧
      s2.adjustments = AdjustmentModal.adjustmentForStore selectedProduct responseId now nowIso
        qty formData.product_id :: s.adjustments) := by
  unfold AdjustmentModal.handleSubmit at h
  by_cases hvalid : AdjustmentModal.validateForm s.adjustmentModalMode formData = true
  · simp only [hvalid, Bool.not_true, Bool.false_eq_true, if_false] at h
    by_cases hedit : s.adjustmentModalMode = "edit"
    · simp only [hedit, decide_True, if_true] at h
      cases hsel : s.selectedAdjustment with
      | none =>
        simp only [hsel, Option.some.injEq] at h
        exact Or.inl (by rw [← h])
      | some selected =>
        simp only [hsel] at h
        rcases outcome with message | response
        · simp only [Option.some.injEq] at h
          exact Or.inl (by rw [← h])
        · cases response with
          | none =>
            simp only [Option.some.injEq] at h
            exact Or.inl (by rw [← h])
          | some response =>
            simp only at h
            by_cases hsucc : response.success = true
            · simp only [hsucc, if_true] at h
              cases hqty : parseInt formData.qty with
              | none => simp [hqty] at h
              | some qty =>
                simp only [hqty, Option.map_some', Option.some.injEq] at h
                refine Or.inr (Or.inl ⟨selected, qty, hedit, rfl, rfl, ?_⟩)
                rw [← h]
                simp only [closeAdjustmentModal, updateAdjustment]
            · simp only [hsucc, Bool.false_eq_true, if_false, Option.some.injEq] at h
              exact Or.inl (by rw [← h])
    · simp only [hedit, decide_False, Bool.false_eq_true, if_false] at h
      rcases outcome with message | response
      · simp only [Option.some.injEq] at h
        exact Or.inl (by rw [← h])
      · cases response with
        | none =>
          simp only [Option.some.injEq] at h
          exact Or.inl (by rw [← h])
        | some response =>
          simp only at h
          by_cases hsucc : response.success = true
          · simp only [hsucc, if_true] at h
            cases hqty : parseInt formData.qty with
            | none => simp [hqty] at h
            | some qty =>
              simp only [hqty, Option.map_some', Option.some.injEq] at h
              refine Or.inr (Or.inr
                ⟨List.find? (fun p => decide (some p.id.toString = formData.product_id)) products,
                  response.data.bind (fun data => data.id), qty, rfl, ?_⟩)
              rw [← h]
              rfl
          · simp only [hsucc, Bool.false_eq_true, if_false, Option.some.injEq] at h
            exact Or.inl (by rw [← h])
  · simp only [hvalid, Bool.not_false, if_true, Option.some.injEq] at h
    exact Or.inl (by rw [← h])

/-- C25, as stated, fails: in edit mode on a selection without a price, while
the store holds an adjustment with the selected identifier and the price 12, a
successful submit of the quantity `-2` stores the quantity -2, the price 12 of
the stored adjustment (the spread does not touch a property the selection
lacks) and the amount 0, which is not `|-2| × 12`. -/
theorem edit_amount_counterexample :
    bareEditState.selectedAdjustment = some bareSelection ∧ bareSelection.price = none ∧
    getAdjustmentById bareEditState (Id.num 7) = some sampleAdjustment ∧
    sampleAdjustment.price = some 12 ∧
    (AdjustmentModal.handleSubmit bareEditState absentProps minusTwoForm []
        (HttpOutcome.returned (some acceptedAdjustment)) 0 "2024-05-11T09:00:00.000Z").map
      (fun st => (getAdjustmentById st (Id.num 7)).map (fun a => (a.qty, a.price, a.amount)))
      = some (some (-2, some 12, some 0)) ∧
    ¬ amountDerived { sampleAdjustment with qty := -2, amount := some 0 } := by
  refine ⟨by decide, by decide, by decide, by decide, by decide!, ?_⟩
  rintro ⟨price, hprice, hamount⟩
  have hp : (12 : Rat) = price := Option.some.inj hprice
  have ha : (0 : Rat) = ((|(-2 : Int)| : Int) : Rat) * price := Option.some.inj hamount
  rw [← hp] at ha
  norm_num at ha

/-- C25 (amended): the object that the create branch writes carries a price and
has the amount `|qty| × price`; the entity that the edit branch writes carries
the price of the selected adjustment and has the amount `|qty| × price`
whenever the selected adjustment carries a price; hence, when in edit mode the
selected adjustment carries a price, every adjustment that is in the collection
after the handler and was not in it before has a derived amount. -/
theorem submitted_amount_derived (now : Int) (nowIso : String) :
    (∀ (selectedProduct : Option Product) (responseId : Option Id) (qty : Int)
        (product_id : Option String),
      amountDerived
        (AdjustmentModal.adjustmentForStore selectedProduct responseId now nowIso qty
          product_id)) ∧
    (∀ (x selected : Adjustment) (own : OwnProps) (qty : Int) (price : Rat),
      selected.price = some price →
      (x.spread ((AdjustmentModal.updatedAdjustment selected qty).toPatch own)).price
        = some price ∧
      (x.spread ((AdjustmentModal.updatedAdjustment selected qty).toPatch own)).qty = qty ∧
      (x.spread ((AdjustmentModal.updatedAdjustment selected qty).toPatch own)).amount
        = some ((|qty| : Int) * price)) ∧
    (∀ (s s2 : State) (own : OwnProps) (formData : AdjustmentForm) (products : List Product)
        (outcome : HttpOutcome (ApiResponse CreatedData)),
      AdjustmentModal.handleSubmit s own formData products outcome now nowIso = some s2 →
      (∀ selected, s.adjustmentModalMode = "edit" → s.selectedAdjustment = some selected →
        ∃ price, selected.price = some price) →
      ∀ a ∈ s2.adjustments, a ∈ s.adjustments ∨ amountDerived a) := by
  refine ⟨?_, ?_, ?_⟩
  · intro selectedProduct responseId qty product_id
    exact ⟨_, rfl, rfl⟩
  · intro x selected own qty price hp
    refine ⟨?_, rfl, ?_⟩
    · simp [Adjustment.spread, Adjustment.toPatch, AdjustmentModal.updatedAdjustment, ownValue,
        hp]
    · simp [Adjustment.spread, Adjustment.toPatch, AdjustmentModal.updatedAdjustment, ownValue,
        hp]
  · intro s s2 own formData products outcome h hprice a ha
    rcases adjustment_submit_adjustments s own formData products outcome now nowIso s2 h with
      hsame | ⟨selected, qty, hmode, hsel, _, hmap⟩ | ⟨selectedProduct, responseId, qty, _, hcons⟩
    · rw [hsame] at ha
      exact Or.inl ha
    · rw [hmap] at ha
      obtain ⟨x, hx, hxa⟩ := List.mem_map.mp ha
      by_cases hid : x.id = selected.id
      · simp only [hid, if_true] at hxa
        rw [← hxa]
        exact Or.inr
          (spread_updated_amountDerived x selected qty own (hprice selected hmode hsel))
      · simp only [hid, if_false] at hxa
        rw [← hxa]
        exact Or.inl hx
    · rw [hcons] at ha
      rcases List.mem_cons.mp ha with hnew | hold
      · rw [hnew]
        exact Or.inr ⟨_, rfl, rfl⟩
      · exact Or.inl hold

/-- Witness of C25 (amended): the quantity of the sample adjustment, which
carries the price 12, revised to 2 in edit mode; the stored adjustment has the
amount `2 × 12`. -/
theorem submitted_amount_derived_witness :
    (∀ a ∈ editedState.adjustments, a ∈ adjustmentEditState.adjustments ∨ amountDerived a) ∧
    (getAdjustmentById editedState (Id.num 7)).map (fun a => (a.qty, a.price, a.amount))
      = some (2, some 12, some 24) :=
  ⟨(submitted_amount_derived 1700000000000 "2024-05-11T09:00:00.000Z").2.2
      adjustmentEditState editedState absentProps editQtyForm []
      (HttpOutcome.returned (some acceptedAdjustment)) (by decide!)
      (fun selected _ hsel => ⟨12, by
        have h : sampleAdjustment = selected := Option.some.inj hsel
        rw [← h]
        rfl⟩),
    by decide!⟩

/-- C26, as stated, fails.  With the bare selection, which lacks SKU, price,
creation time and product reference, the adjustment stored under the selected
identifier after a successful edit keeps these properties of the stored
adjustment and is not the selection with the new quantity and amount.  With a
stale selection that carries another SKU and product reference, the stored
adjustment takes both over, so its SKU and product reference change. -/
theorem edit_stored_counterexample :
    (AdjustmentModal.handleSubmit bareEditState absentProps minusTwoForm []
        (HttpOutcome.returned (some acceptedAdjustment)) 0 "2024-05-11T09:00:00.000Z").map
      (fun st => getAdjustmentById st (Id.num 7))
      = some (some { sampleAdjustment with qty := -2, amount := some 0 }) ∧
    { sampleAdjustment with qty := -2, amount := some 0 }
      ≠ AdjustmentModal.updatedAdjustment bareSelection (-2) ∧
    (getAdjustmentById staleEditState (Id.num 7)).map (fun a => (a.sku, a.product_id))
      = some (some "MUG-001", some (Id.num 1)) ∧
    (AdjustmentModal.handleSubmit staleEditState absentProps minusTwoForm []
        (HttpOutcome.returned (some acceptedAdjustment)) 0 "2024-05-11T09:00:00.000Z").map
      (fun st => (getAdjustmentById st (Id.num 7)).map (fun a => (a.sku, a.product_id)))
      = some (some (some "OLD-001", some (Id.num 2))) := by
  decide!

/-- C26 (amended): in edit mode, when the selected adjustment is the adjustment
that the store holds under its identifier, after a submit that the validation
accepts, that parses to the quantity `qty` and that the server answers with
success, the adjustment stored under that identifier is the one stored before
with `qty` and the amount `|qty| × price` in place of the old quantity and
amount: its identifier, product reference, SKU, title, image, price and
creation time are those it had before, and the length of the collection and
the total are unchanged. -/
theorem edit_revises_quantity (s : State) (own : OwnProps) (formData : AdjustmentForm)
    (products : List Product) (response : ApiResponse CreatedData) (now : Int)
    (nowIso : String) (selected : Adjustment) (qty : Int)
    (hmode : s.adjustmentModalMode = "edit") (hselected : s.selectedAdjustment = some selected)
    (hstored : getAdjustmentById s selected.id = some selected)
    (hvalid : AdjustmentModal.validateForm "edit" formData = true)
    (hsuccess : response.success = true) (hqty : parseInt formData.qty = some qty) :
    ∃ s2 : State,
      AdjustmentModal.handleSubmit s own formData products
        (HttpOutcome.returned (some response)) now nowIso = some s2 ∧
      s2.adjustments.length = s.adjustments.length ∧
      s2.adjustmentTotal = s.adjustmentTotal ∧
      getAdjustmentById s2 selected.id
        = some { selected with
            qty := qty
            amount := some ((|qty| : Int) * selected.price.getD 0) } ∧
      (∀ before after : Adjustment, getAdjustmentById s selected.id = some before →
        getAdjustmentById s2 selected.id = some after →
        after.id = before.id ∧ after.product_id = before.product_id ∧
        after.sku = before.sku ∧ after.title = before.title ∧ after.image = before.image ∧
        after.price = before.price ∧ after.created_at = before.created_at ∧
        after.qty = qty ∧ after.amount = some ((|qty| : Int) * before.price.getD 0)) := by
  have hlookup : getAdjustmentById
      (closeAdjustmentModal
        (updateAdjustment s selected.id
          ((AdjustmentModal.updatedAdjustment selected qty).toPatch own))) selected.id
      = some (AdjustmentModal.updatedAdjustment selected qty) := by
    have h := find_map_patch Adjustment.id
      (fun x => x.spread ((AdjustmentModal.updatedAdjustment selected qty).toPatch own))
      selected.id (fun x _ => rfl) s.adjustments
    simp only [getAdjustmentById] at hstored
    simp only [getAdjustmentById, closeAdjustmentModal, updateAdjustment]
    rw [h, hstored]
    simp only [Option.map_some', spread_toPatch_self]
  refine ⟨closeAdjustmentModal
    (updateAdjustment s selected.id
      ((AdjustmentModal.updatedAdjustment selected qty).toPatch own)), ?_, ?_, rfl, hlookup, ?_⟩
  · unfold AdjustmentModal.handleSubmit
    simp [hmode, hselected, hvalid, hsuccess, hqty]
  · simp [closeAdjustmentModal, updateAdjustment]
  · intro before after hbefore hafter
    rw [hstored] at hbefore
    rw [hlookup] at hafter
    have hb : selected = before := Option.some.inj hbefore
    have ha : AdjustmentModal.updatedAdjustment selected qty = after := Option.some.inj hafter
    rw [← hb, ← ha]
    exact ⟨rfl, rfl, rfl, rfl, rfl, rfl, rfl, rfl, rfl⟩

/-- Witness of C26 (amended): the sample adjustment, selected from the store,
revised from the quantity 5 to 2. -/
theorem edit_revises_quantity_witness :
    ∃ s2 : State,
      AdjustmentModal.handleSubmit adjustmentEditState absentProps editQtyForm []
        (HttpOutcome.returned (some acceptedAdjustment)) 0 "2024-05-11T09:00:00.000Z"
        = some s2 ∧
      s2.adjustments.length = adjustmentEditState.adjustments.length ∧
      s2.adjustmentTotal = adjustmentEditState.adjustmentTotal ∧
      getAdjustmentById s2 (Id.num 7)
        = some { sampleAdjustment with
            qty := 2
            amount := some ((|(2 : Int)| : Int) * sampleAdjustment.price.getD 0) } :=
  match edit_revises_quantity adjustmentEditState absentProps editQtyForm []
    acceptedAdjustment 0 "2024-05-11T09:00:00.000Z" sampleAdjustment 2 rfl rfl (by decide)
    (by decide) rfl (by decide) with
  | ⟨s2, h1, h2, h3, h4, _⟩ => ⟨s2, h1, h2, h3, h4⟩

/-- What the validation of the product form does establish about the price: it
parses to a finite number greater than 0 and at most 999999. -/
theorem product_validateForm_price (isValidUrl : String → Bool) (formData : ProductForm)
    (h : ProductModal.validateForm isValidUrl formData = true) :
    ∃ price : Rat, parseFloat formData.price = JsNumber.finite price ∧ 0 < price ∧
      price ≤ 999999 := by
  have hprice : ProductModal.validateField isValidUrl "price" formData.price = "" := by
    simp only [ProductModal.validateForm, ProductForm.entries, List.all_cons, List.all_nil,
      Bool.and_true, Bool.and_eq_true, decide_eq_true_eq] at h
    exact h.2.2.2.2.1
  unfold ProductModal.validateField at hprice
  have h1 : ¬ ("price" = "title") := by decide
  have h2 : ¬ ("price" = "sku") := by decide
  have h3 : ¬ ("price" = "description") := by decide
  simp only [h1, h2, h3, if_false, if_true] at hprice
  split_ifs at hprice with he hnan hle hgt
  · exact absurd hprice (by decide)
  · exact absurd hprice (by decide)
  · exact absurd hprice (by decide)
  · exact absurd hprice (by decide)
  · cases hparse : parseFloat formData.price with
    | nan => exact absurd hparse hnan
    | infinity negative =>
      rw [hparse] at hle hgt
      cases negative
      · exact absurd rfl hgt
      · exact absurd rfl hle
    | finite price =>
      rw [hparse] at hle hgt
      simp only [JsNumber.leZero, JsNumber.gtLimit, decide_eq_true_eq, not_le, not_lt,
        gt_iff_lt] at hle hgt
      exact ⟨price, rfl, hle, hgt⟩

/-- C28, the code at the failing inputs: `validateField` has no case for the
stock, so `validateForm` accepts the create form, whose stock is the empty
string, and the payload built from it has the stock `parseInt("")`, which is
`NaN`; written to the store without data from the server it is an entity the
data model cannot hold.  A form with the stock `-2` is accepted as well and
yields the stock -2.  The price of both payloads is 12. -/
theorem product_stock_not_validated :
    ProductModal.validateField anyUrl "stock" "" = "" ∧
    ProductModal.validateForm anyUrl createForm = true ∧
    (ProductModal.productData asciiUpper createForm).stock = none ∧
    (ProductModal.productData asciiUpper createForm).price = JsNumber.finite 12 ∧
    ProductModal.handleSubmit anyUrl asciiUpper (openProductModal sampleState none) createForm
        (HttpOutcome.threw "unused")
        (HttpOutcome.returned (some { success := true, message := none, data := none })) 0
      = none ∧
    ProductModal.validateForm anyUrl { editForm with stock := "-2" } = true ∧
    (ProductModal.productData asciiUpper { editForm with stock := "-2" }).stock
      = some (-2) := by
  decide

end Store
